import Mathlib

/-!
Pagination rewrite of the SQL builder (`builder_limit.go`).

A shallow embedding of `Builder.limitWriteTo` together with the parts of the
builder it touches.  Conventions of the embedding:

* Go strings are Lean strings.  A Go slice is modelled by its contents, a list.
  The one place where two `append` calls of the source can write the same slot
  of a backing array is the select list of the receiver: whether that slice has
  spare capacity (`cap > len`) when the call starts is the parameter `spare`.
* Go `int` is the 64-bit two-complement integer: values are carried as `Int`
  and every addition of the source goes through `wrapInt`.
* Go `error` results are `Option Error` (`none` is `nil`).
* A `*Builder` receiver that the source mutates is passed in and returned.
* `Builder.WriteTo` is not part of `builder_limit.go`; `limitWriteTo` takes it
  as the parameter `WriteTo`, a transformer of the writer.
* `unicode.ToLower` and `unicode.ToUpper` (the case tables of the Go library)
  are the parameters `lower` and `upper`.
-/

namespace builder

/-! ## Data model -/

/-- A bound argument value (`interface{}` in the argument list of a writer). -/
inductive Value where
  | int (i : Int)
  | str (s : String)
deriving DecidableEq, Repr

/-- The error values of the package that the pagination path and the statement
renderer return; `New msg` is `errors.New(msg)`. -/
inductive Error where
  | ErrNotSupportType
  | ErrNoTableName
  | ErrUnnamedDerivedTable
  | ErrUnexpectedSubQuery
  | ErrInconsistentDialect
  | New (msg : String)
deriving DecidableEq, Repr

/-- Statement kind of a Builder (`optype`). -/
inductive OpType where
  | selectType
  | insertType
  | updateType
  | deleteType
  | unionType
deriving DecidableEq, Repr

open OpType

/-- Modelled from the spec: the Condition collaborator (its type declaration is
not in `builder_limit.go`), "a boolean predicate expression tree" with the
combinators the pagination path uses: the empty condition of `NewCond()`, the
comparisons `Lte` and `Gt`, the membership test `NotIn` against a nested
query, the conjunction `And`, and a raw SQL fragment with its arguments.
`B` is the type of nested queries. -/
inductive Cond (B : Type) where
  | empty
  | expr (sql : String) (args : List Value)
  | lte (col : String) (v : Value)
  | gt (col : String) (v : Value)
  | notIn (col : String) (sub : B)
  | and (l r : Cond B)

/-- The pagination spec `b.limitation` with the four fields the source reads:
`style`, `offset`, `limitN` and `pk`. -/
structure Limit where
  style : String
  offset : Int
  limitN : Int
  pk : String
deriving DecidableEq, Repr

/-- The Builder, with the fields that `limitWriteTo` reads or that the
constructors it calls set (`optype`, `selects`, `cond`, `limitation`, the
source `tableName` and `subQuery`, the nested flag) and the remaining clause
fields of the data model (dialect, grouping, having, ordering).  A UNION
Builder holds its branches in `unions`, each with the keyword it was added
under (`all`, `distinct`, empty for the first branch). -/
structure Builder where
  optype : OpType
  dialect : String
  isNested : Bool
  tableName : String
  subQuery : Option Builder
  unions : List (String × Builder)
  cond : Cond Builder
  selects : List String
  limitation : Option Limit
  groupBy : String
  having : String
  orderBy : String

/-- The writer `BytesWriter`: a text buffer and the bound arguments. -/
structure BytesWriter where
  writer : String
  args : List Value
deriving DecidableEq, Repr

/-- A render call: it returns the error (if any) and the writer it leaves. -/
abbrev Renderer := Builder → BytesWriter → Option Error × BytesWriter

/-- The writer after `ow.writer.Reset()` and `ow.args = nil`. -/
def BytesWriter.reset : BytesWriter := { writer := "", args := [] }

/-- Writing text to the writer appends it to the buffer (`io.Writer`). -/
def BytesWriter.Write (w : BytesWriter) (s : String) : BytesWriter :=
  { w with writer := w.writer ++ s }

/-- Appending bound arguments to the writer (`Writer.Append`). -/
def BytesWriter.Append (w : BytesWriter) (as : List Value) : BytesWriter :=
  { w with args := w.args ++ as }

/-! ## Library functions used by the source -/

/-- The white-space runes of `unicode.IsSpace`, which `strings.TrimSpace`
strips. -/
def isSpace (c : Char) : Bool :=
  let n := c.toNat
  n = 0x09 || n = 0x0A || n = 0x0B || n = 0x0C || n = 0x0D || n = 0x20 ||
  n = 0x85 || n = 0xA0 || n = 0x1680 || (0x2000 ≤ n && n ≤ 0x200A) ||
  n = 0x2028 || n = 0x2029 || n = 0x202F || n = 0x205F || n = 0x3000

/-- Go `strings.TrimSpace`: leading and trailing white space removed. -/
def TrimSpace (s : String) : String :=
  String.mk (((s.data.dropWhile isSpace).reverse.dropWhile isSpace).reverse)

/-- Go `strings.ToLower`, rune by rune through the case table `lower`. -/
def ToLower (lower : Char → Char) (s : String) : String :=
  String.mk (s.data.map lower)

/-- Go `strings.ToUpper`, rune by rune through the case table `upper`. -/
def ToUpper (upper : Char → Char) (s : String) : String :=
  String.mk (s.data.map upper)

/-- The upper-casing of the ASCII letters, an instance of the case table. -/
def asciiUpper (c : Char) : Char :=
  if 97 ≤ c.toNat ∧ c.toNat ≤ 122 then Char.ofNat (c.toNat - 32) else c

/-- The lower-casing of the ASCII letters, an instance of the case table. -/
def asciiLower (c : Char) : Char :=
  if 65 ≤ c.toNat ∧ c.toNat ≤ 90 then Char.ofNat (c.toNat + 32) else c

/-- Go `strings.Join`. -/
def Join (xs : List String) (sep : String) : String :=
  sep.intercalate xs

/-- Decimal rendering of an `int` by `fmt` (`%d`, `%v`, `Fprint`). -/
def formatInt : Int → String
  | Int.ofNat n => Nat.repr n
  | Int.negSucc n => "-" ++ Nat.repr (n + 1)

/-- Reduction of an integer to the range of the 64-bit `int`. -/
def wrapInt (x : Int) : Int :=
  (x + 2 ^ 63) % 2 ^ 64 - 2 ^ 63

/-- Dialect names of `github.com/go-xorm/core`. -/
def ORACLE : String := "oracle"

/-- Dialect name `core.SQLITE`. -/
def SQLITE : String := "sqlite3"

/-- Dialect name `core.MYSQL`. -/
def MYSQL : String := "mysql"

/-- Dialect name `core.POSTGRES`. -/
def POSTGRES : String := "postgres"

/-- Dialect name `core.MSSQL`. -/
def MSSQL : String := "mssql"

/-! ## Builder constructors called by the pagination path -/

/-- Modelled from the spec: `NewCond()`, the empty (no-op) filter of a freshly
created Builder. -/
def NewCond : Cond Builder := Cond.empty

/-- Modelled from the spec: the comparison `Lte{col: v}` with an `int`
operand. -/
def Lte (col : String) (v : Int) : Cond Builder := Cond.lte col (Value.int v)

/-- Modelled from the spec: the comparison `Gt{col: v}` with an `int`
operand. -/
def Gt (col : String) (v : Int) : Cond Builder := Cond.gt col (Value.int v)

/-- Modelled from the spec: the membership test `NotIn(col, sub)` against a
nested query. -/
def NotIn (col : String) (sub : Builder) : Cond Builder := Cond.notIn col sub

/-- Modelled from the spec: the conjunction `c.And(d)` of two conditions. -/
def Cond.And (c d : Cond Builder) : Cond Builder := Cond.and c d

/-- Modelled from the spec: the factory `Select(cols...)`, a SELECT Builder
with the given select list, an empty filter and every other field at its zero
value. -/
def Select (cols : List String) : Builder :=
  { optype := selectType, dialect := "", isNested := false, tableName := "",
    subQuery := none, unions := [], cond := NewCond, selects := cols, limitation := none,
    groupBy := "", having := "", orderBy := "" }

/-- Modelled from the spec: `b.From(name, sub)` as `limitWriteTo` calls it: the
source of `b` becomes the nested Builder `sub` under the alias `name` (the
empty string is no alias); without a nested Builder `name` is the table. -/
def From (name : String) (sub : Option Builder) (b : Builder) : Builder :=
  { b with tableName := name, subQuery := sub }

/-- Modelled from the spec: `b.Where(cond)` on a Builder whose filter is empty
sets the filter; on one that has a filter it conjoins. -/
def Where (c : Cond Builder) (b : Builder) : Builder :=
  match b.cond with
  | Cond.empty => { b with cond := c }
  | old => { b with cond := Cond.And old c }

/-- Modelled from the spec: `b.SetNestedFlag(flag)` marks the Builder as
"already nested". -/
def SetNestedFlag (flag : Bool) (b : Builder) : Builder :=
  { b with isNested := flag }

/-! ## The pagination path -/

/-- The method `(b *Builder) limitWriteTo(w Writer) error` of
`builder_limit.go`.  The result is the returned error, the receiver as the
call leaves it, and the writer as the call leaves it.  `spare` says whether
the slice `b.selects` has spare capacity when the call starts: then
`append(selects, "ROWNUM RN")` and `append(selects, "RN")` write the same slot
of the backing array that `b.selects` views, and the second overwrites the
first.  The wrappers hold the receiver by pointer, so their nested source is
the receiver as it is when the render call is made. -/
def limitWriteTo (lower : Char → Char) (spare : Bool) (WriteTo : Renderer)
    (b : Builder) (w : BytesWriter) : Option Error × Builder × BytesWriter :=
  if ¬ (b.optype = selectType ∨ b.optype = unionType) then
    (some (Error.New "LIMIT is limited in SELECT and UNION"), b, w)
  else
    match b.limitation with
    | none => (none, b, w)
    | some limit =>
      if limit.offset < 0 ∨ limit.limitN ≤ 0 then
        (some (Error.New "Unexpected offset/limitN, set a negative one?"), b, w)
      else
        let selects := b.selects
        -- erase limit condition
        let b1 : Builder := { b with limitation := none }
        -- flush writer, both buffer & args
        let ow : BytesWriter := BytesWriter.reset
        let key := ToLower lower (TrimSpace limit.style)
        if key = ORACLE then
          let b2 : Builder := { b1 with selects := selects ++ ["ROWNUM RN"] }
          if limit.offset = 0 then
            let final := Where (Lte "at.ROWNUM" limit.limitN)
              (From "at" (some b2) (Select selects))
            let r := WriteTo final ow
            (r.1, b2, r.2)
          else
            -- append(selects, "RN") reuses the slot of "ROWNUM RN" under spare capacity
            let b3 : Builder := if spare then { b2 with selects := selects ++ ["RN"] } else b2
            let sub := Where (Lte "at.ROWNUM" (wrapInt (limit.offset + limit.limitN)))
              (From "at" (some b3) (Select (selects ++ ["RN"])))
            if selects.length = 0 then
              (some Error.ErrNotSupportType, b3, ow)
            else
              let final := Where (Gt "att.RN" limit.offset)
                (From "att" (some sub) (Select selects))
              let r := WriteTo final ow
              (r.1, b3, r.2)
        else if key = SQLITE ∨ key = MYSQL ∨ key = POSTGRES then
          -- the error of this render call is dropped by the source
          let r := WriteTo b1 ow
          if limit.offset = 0 then
            (none, b1, r.2.Write (" LIMIT " ++ formatInt limit.limitN))
          else
            (none, b1, r.2.Write (" LIMIT " ++ formatInt limit.limitN ++
              " OFFSET " ++ formatInt limit.offset))
        else if key = MSSQL then
          if limit.offset = 0 then
            let selects1 := if selects.length = 0 then selects ++ ["*"] else selects
            let final := SetNestedFlag true (From "" (some b1)
              (Select ["TOP " ++ formatInt limit.limitN ++ " " ++ Join selects1 ","]))
            let r := WriteTo final ow
            (r.1, b1, r.2)
          else
            if TrimSpace limit.pk = "" then
              (some (Error.New "Please assign a PK for MsSQL LIMIT operation"), b1, ow)
            else
              let sub := SetNestedFlag true (From "" (some b1)
                (Select ["TOP " ++ formatInt (wrapInt (limit.limitN + limit.offset)) ++ " " ++
                  Join (selects ++ [limit.pk]) ","]))
              if selects.length = 0 then
                (some Error.ErrNotSupportType, b1, ow)
              else
                let final := Where (Cond.And b1.cond (NotIn limit.pk sub))
                  (SetNestedFlag true (From "" (some sub)
                    (Select ["TOP " ++ formatInt limit.limitN ++ " " ++ Join selects ","])))
                let r := WriteTo final ow
                (r.1, b1, r.2)
        else
          (some Error.ErrNotSupportType, b1, ow)

/-- The Builder `b` as the pagination path leaves it on the native and TOP
routes: the pagination spec erased (`b.limitation = nil`). -/
def cleared (b : Builder) : Builder :=
  { b with limitation := none }

/-- The Builder `b` as the pagination path leaves it on the ROWNUM route: the
pagination spec erased and the synthetic column appended to the select list
(`b.selects = append(selects, "ROWNUM RN")`). -/
def withRownum (b : Builder) : Builder :=
  { b with limitation := none, selects := b.selects ++ ["ROWNUM RN"] }

/-- The Builder `b` as the pagination path leaves it on the ROWNUM route with
offset above 0 when its select list had spare capacity: the pagination spec
erased and the appended slot overwritten by `RN`. -/
def overwritten (b : Builder) : Builder :=
  { b with limitation := none, selects := b.selects ++ ["RN"] }

/-- The pagination path on `b` and `w` constructs the Builder `final` and
hands it, with the flushed writer, to the render call whose error and writer
it returns: this holds whatever `Builder.WriteTo` does. -/
def Renders (lower : Char → Char) (spare : Bool) (b : Builder) (w : BytesWriter)
    (final : Builder) : Prop :=
  ∀ WriteTo : Renderer,
    (limitWriteTo lower spare WriteTo b w).1 = (WriteTo final BytesWriter.reset).1 ∧
    (limitWriteTo lower spare WriteTo b w).2.2 = (WriteTo final BytesWriter.reset).2

/-! ## The statement renderer -/

/-- Modelled from the spec: whether a condition is non-empty (`IsValid`); the
filter of a Builder is "possibly empty/no-op". -/
def Cond.IsValid : Cond Builder → Bool
  | Cond.empty => false
  | Cond.expr sql _ => sql != ""
  | Cond.lte _ _ => true
  | Cond.gt _ _ => true
  | Cond.notIn _ _ => true
  | Cond.and l r => l.IsValid || r.IsValid

/-- Modelled from the spec: a Condition "renders itself as text + args into a
Writer".  A comparison is written as the column, the operator and the
placeholder, and binds its operand, as the tests show for `Eq` (`a=?` with
argument `1`); `NotIn` writes `col NOT IN (...)` around the render of the
nested query, for which `sub` stands; `And` joins its non-empty operands with
` AND `. -/
def Cond.WriteTo (sub : Renderer) : Cond Builder → BytesWriter → Option Error × BytesWriter
  | Cond.empty, w => (none, w)
  | Cond.expr sql args, w => (none, (w.Write sql).Append args)
  | Cond.lte col v, w => (none, (w.Write (col ++ "<=?")).Append [v])
  | Cond.gt col v, w => (none, (w.Write (col ++ ">?")).Append [v])
  | Cond.notIn col q, w =>
    let r := sub q (w.Write (col ++ " NOT IN ("))
    match r.1 with
    | some e => (some e, r.2)
    | none => (none, r.2.Write ")")
  | Cond.and l r, w =>
    if ¬ l.IsValid then Cond.WriteTo sub r w
    else if ¬ r.IsValid then Cond.WriteTo sub l w
    else
      let r1 := Cond.WriteTo sub l w
      match r1.1 with
      | some e => (some e, r1.2)
      | none => Cond.WriteTo sub r (r1.2.Write " AND ")

/-- Modelled from the spec: the SELECT writer behind `Builder.WriteTo`, for a
Builder without pagination spec (section 4.1 and the outputs of
`builder_select_test.go`).  `sub` is the render call on a nested Builder.
Errors: no table name and no nested source is `ErrNoTableName`; a nested
source without alias under a non-empty filter is `ErrUnnamedDerivedTable`; a
nested source that is neither SELECT nor UNION is `ErrUnexpectedSubQuery`;
dialects both set and different are `ErrInconsistentDialect`.  The text is
`SELECT cols FROM src [WHERE cond] [GROUP BY g] [HAVING h] [ORDER BY o]`, with
`*` for an empty select list and `(nested) alias` for a nested source. -/
def selectWriteTo (sub : Renderer) (b : Builder) (w : BytesWriter) :
    Option Error × BytesWriter :=
  if b.tableName = "" ∧ b.subQuery.isNone then (some Error.ErrNoTableName, w)
  else
    let w1 := w.Write ("SELECT " ++ (if b.selects.length = 0 then "*" else Join b.selects ","))
    let src : Option Error × BytesWriter :=
      match b.subQuery with
      | none => (none, w1.Write (" FROM " ++ b.tableName))
      | some q =>
        if b.cond.IsValid ∧ b.tableName = "" then (some Error.ErrUnnamedDerivedTable, w1)
        else if ¬ (q.optype = selectType ∨ q.optype = unionType) then
          (some Error.ErrUnexpectedSubQuery, w1)
        else if q.dialect ≠ "" ∧ b.dialect ≠ "" ∧ b.dialect ≠ q.dialect then
          (some Error.ErrInconsistentDialect, w1)
        else
          let r := sub q (w1.Write " FROM (")
          match r.1 with
          | some e => (some e, r.2)
          | none => (none, r.2.Write (if b.tableName = "" then ")" else ") " ++ b.tableName))
    match src.1 with
    | some e => (some e, src.2)
    | none =>
      let wh : Option Error × BytesWriter :=
        if b.cond.IsValid then Cond.WriteTo sub b.cond (src.2.Write " WHERE ")
        else (none, src.2)
      match wh.1 with
      | some e => (some e, wh.2)
      | none =>
        let w3 := if b.groupBy = "" then wh.2 else wh.2.Write (" GROUP BY " ++ b.groupBy)
        let w4 := if b.having = "" then w3 else w3.Write (" HAVING " ++ b.having)
        let w5 := if b.orderBy = "" then w4 else w4.Write (" ORDER BY " ++ b.orderBy)
        (none, w5)

/-- A render call that writes nothing: the nested-source renderer of a query
that has no nested source. -/
def noSub : Renderer := fun _ w => (none, w)

/-! ## Example inputs -/

/-- The query `Select("a").From("t").Where(Expr("x=?", 1))`. -/
def exQuery : Builder :=
  Where (Cond.expr "x=?" [Value.int 1]) (From "t" none (Select ["a"]))

/-- The query `exQuery` with a pagination spec attached. -/
def exPaged (style : String) (offset limitN : Int) (pk : String) : Builder :=
  { exQuery with limitation := some { style := style, offset := offset, limitN := limitN, pk := pk } }

/-- The query `Select().From("t")`, whose select list is empty, with a
pagination spec attached. -/
def exStar (style : String) (offset limitN : Int) (pk : String) : Builder :=
  { (From "t" none (Select [])) with
    limitation := some { style := style, offset := offset, limitN := limitN, pk := pk } }

/-- A writer that already holds text and an argument. -/
def exWriter : BytesWriter := { writer := "SELECT a FROM t", args := [Value.int 7] }

/-! ## Predicates and inputs for the frame and invariant properties -/

/-- The Builder `b` carrying the pagination spec `limit` under the dialect
style `s`. -/
def withStyle (b : Builder) (limit : Limit) (s : String) : Builder :=
  { b with limitation := some { limit with style := s } }

/-- The Builders that the rewrite of `b` may hand to a render call: `b` itself
with its pagination erased (with or without the item appended to its select
list), or a Builder without pagination spec whose nested source is such a
Builder. -/
inductive Rewritten (b : Builder) : Builder → Prop where
  | erased : Rewritten b (cleared b)
  | rownum : Rewritten b (withRownum b)
  | overwritten : Rewritten b (overwritten b)
  | wrapper (q inner : Builder) (hlim : q.limitation = none)
      (hsrc : q.subQuery = some inner) (hin : Rewritten b inner) : Rewritten b q

/-- The query `Select("a")` without a table, with the pagination spec
`mysql`, offset 0, count 5. -/
def exNoTable : Builder :=
  { (Select ["a"]) with
    limitation := some { style := "mysql", offset := 0, limitN := 5, pk := "" } }

/-- The nested query `Select("id").From("table1").Where(a = 1)` of
`TestBuilder_From`, under the dialect `d`. -/
def exInner (d : String) : Builder :=
  { (Where (Cond.expr "a=?" [Value.int 1]) (From "table1" none (Select ["id"]))) with
    dialect := d }

/-- The outer query `Select("sub.id").From(inner, alias)` of `TestBuilder_From`
under the dialect `d`, with filter `c` and ordering `o`. -/
def exOuter (d : String) (inner : Builder) (name : String) (c : Cond Builder)
    (o : String) : Builder :=
  { (From name (some inner) (Select ["sub.id"])) with dialect := d, cond := c, orderBy := o }

/-! ## The UNION writer and the dispatch on the statement kind -/

/-- Modelled from the spec: the branches of a UNION written in order, each in
parentheses, every branch after the first behind ` UNION ` and its keyword in
upper case, as the output of `TestBuilder_From` shows (`(...) UNION ALL
(...)`); `first` says that no branch has been written yet, `sub` is the render
call on a branch, and the first error stops the rendering. -/
def unionBranches (upper : Char → Char) (sub : Renderer) :
    List (String × Builder) → Bool → BytesWriter → Option Error × BytesWriter
  | [], _, w => (none, w)
  | (tp, q) :: rest, first, w =>
    let r := sub q (if first then w.Write "(" else w.Write (" UNION " ++ ToUpper upper tp ++ " ("))
    match r.1 with
    | some e => (some e, r.2)
    | none => unionBranches upper sub rest false (r.2.Write ")")

/-- Modelled from the spec: the UNION writer behind `Builder.WriteTo`, for a
Builder without pagination spec: its branches in order; the select list of a
UNION Builder is not written. -/
def unionWriteTo (upper : Char → Char) (sub : Renderer) (b : Builder) (w : BytesWriter) :
    Option Error × BytesWriter :=
  unionBranches upper sub b.unions true w

/-- Modelled from the spec: `Builder.WriteTo` on a Builder without pagination
spec, "dispatching by statement kind": the SELECT writer, the UNION writer,
and for the other kinds the writers `other`, which are not modelled.  `sub` is
the render call on nested Builders. -/
def Builder.WriteTo (upper : Char → Char) (other sub : Renderer) (b : Builder)
    (w : BytesWriter) : Option Error × BytesWriter :=
  match b.optype with
  | selectType => selectWriteTo sub b w
  | unionType => unionWriteTo upper sub b w
  | _ => other b w

/-- The error and the arguments that a render step leaves depend on the
arguments already in the writer only, not on the text written so far. -/
def ArgsOnly (f : BytesWriter → Option Error × BytesWriter) : Prop :=
  ∀ w1 w2 : BytesWriter, w1.args = w2.args →
    (f w1).1 = (f w2).1 ∧ (f w1).2.args = (f w2).2.args

/-- The branch `Select("id").From("table1").Where(a = v)` of the UNION of
`TestBuilder_From`. -/
def exBranch (v : Int) : Builder :=
  Where (Cond.expr "a=?" [Value.int v]) (From "table1" none (Select ["id"]))

/-- The UNION Builder of `TestBuilder_From`:
`Select("id").From("table1").Where(a = 1).Union("all", Select("id")...Where(a = 2))`. -/
def exUnion : Builder :=
  { (Select ["id"]) with
    optype := unionType, unions := [("", exBranch 1), ("all", exBranch 2)] }

/-! ## The steps of the SELECT writer -/

/-- The source step of `selectWriteTo`: what it writes after the select list,
for the table or the nested source. -/
def selectSource (sub : Renderer) (b : Builder) (w1 : BytesWriter) :
    Option Error × BytesWriter :=
  match b.subQuery with
  | none => (none, w1.Write (" FROM " ++ b.tableName))
  | some q =>
    if b.cond.IsValid ∧ b.tableName = "" then (some Error.ErrUnnamedDerivedTable, w1)
    else if ¬ (q.optype = selectType ∨ q.optype = unionType) then
      (some Error.ErrUnexpectedSubQuery, w1)
    else if q.dialect ≠ "" ∧ b.dialect ≠ "" ∧ b.dialect ≠ q.dialect then
      (some Error.ErrInconsistentDialect, w1)
    else
      let r := sub q (w1.Write " FROM (")
      match r.1 with
      | some e => (some e, r.2)
      | none => (none, r.2.Write (if b.tableName = "" then ")" else ") " ++ b.tableName))

/-- The steps of `selectWriteTo` after the source step `src`: the filter and
the grouping, having and ordering clauses. -/
def selectClauses (sub : Renderer) (b : Builder) (src : Option Error × BytesWriter) :
    Option Error × BytesWriter :=
  match src.1 with
  | some e => (some e, src.2)
  | none =>
    let wh : Option Error × BytesWriter :=
      if b.cond.IsValid then Cond.WriteTo sub b.cond (src.2.Write " WHERE ")
      else (none, src.2)
    match wh.1 with
    | some e => (some e, wh.2)
    | none =>
      let w3 := if b.groupBy = "" then wh.2 else wh.2.Write (" GROUP BY " ++ b.groupBy)
      let w4 := if b.having = "" then w3 else w3.Write (" HAVING " ++ b.having)
      let w5 := if b.orderBy = "" then w4 else w4.Write (" ORDER BY " ++ b.orderBy)
      (none, w5)

/-! ## Helper lemmas: the wrapper Builders -/

/-- A string made of white space only (the empty string included) trims to the
empty string. -/
theorem TrimSpace_blank (s : String) (h : ∀ c ∈ s.data, isSpace c = true) :
    TrimSpace s = "" := by
  have h1 : s.data.dropWhile isSpace = [] := List.dropWhile_eq_nil_iff.mpr h
  unfold TrimSpace
  rw [h1]
  rfl

/-- The Builder that the pagination path renders is determined by the path. -/
theorem Renders_unique (lower : Char → Char) (spare : Bool) (b : Builder) (w : BytesWriter)
    (f1 f2 : Builder) (h1 : Renders lower spare b w f1) (h2 : Renders lower spare b w f2) :
    f1 = f2 := by
  classical
  have a := (h1 (fun q _ => (if q = f1 then none else some Error.ErrNotSupportType,
    BytesWriter.reset))).1
  have c := (h2 (fun q _ => (if q = f1 then none else some Error.ErrNotSupportType,
    BytesWriter.reset))).1
  rw [a] at c
  by_contra hne
  have hne2 : ¬ f2 = f1 := fun h => hne h.symm
  simp [hne2] at c

/-- ROWNUM route, offset 0: the wrapper that is rendered. -/
theorem rownum_first_page (lower : Char → Char) (spare : Bool) (b : Builder) (w : BytesWriter)
    (limit : Limit)
    (hop : b.optype = selectType ∨ b.optype = unionType)
    (hlim : b.limitation = some limit)
    (hN : 0 < limit.limitN) (hO : limit.offset = 0)
    (hkey : ToLower lower (TrimSpace limit.style) = ORACLE) :
    Renders lower spare b w
      (Where (Lte "at.ROWNUM" limit.limitN)
        (From "at" (some (withRownum b)) (Select b.selects))) := by
  intro WriteTo
  have g1 : ¬ ¬ (b.optype = selectType ∨ b.optype = unionType) := not_not.mpr hop
  have g2 : ¬ (limit.offset < 0 ∨ limit.limitN ≤ 0) := by omega
  unfold limitWriteTo
  rw [if_neg g1]
  simp only [hlim]
  rw [if_neg g2]
  simp only [if_pos hkey, if_pos hO]
  exact ⟨rfl, rfl⟩

/-- ROWNUM route, offset above 0, select list not empty: the two-level wrapper
that is rendered.  Its innermost source is the receiver as the call leaves it:
with `ROWNUM RN` appended, or with `RN` in that slot when the select list had
spare capacity. -/
theorem rownum_later_page (lower : Char → Char) (spare : Bool) (b : Builder) (w : BytesWriter)
    (limit : Limit)
    (hop : b.optype = selectType ∨ b.optype = unionType)
    (hlim : b.limitation = some limit)
    (hN : 0 < limit.limitN) (hO : 0 < limit.offset)
    (hkey : ToLower lower (TrimSpace limit.style) = ORACLE)
    (hsel : b.selects ≠ []) :
    Renders lower spare b w
      (Where (Gt "att.RN" limit.offset)
        (From "att"
          (some (Where (Lte "at.ROWNUM" (wrapInt (limit.offset + limit.limitN)))
            (From "at" (some (if spare = true then overwritten b else withRownum b))
              (Select (b.selects ++ ["RN"])))))
          (Select b.selects))) := by
  intro WriteTo
  have g1 : ¬ ¬ (b.optype = selectType ∨ b.optype = unionType) := not_not.mpr hop
  have g2 : ¬ (limit.offset < 0 ∨ limit.limitN ≤ 0) := by omega
  have g3 : ¬ limit.offset = 0 := by omega
  have g4 : ¬ b.selects.length = 0 := by
    intro h
    exact hsel (List.length_eq_zero.mp h)
  unfold limitWriteTo
  rw [if_neg g1]
  simp only [hlim]
  rw [if_neg g2]
  simp only [if_pos hkey, if_neg g3, if_neg g4]
  exact ⟨rfl, rfl⟩

/-- TOP route, offset 0: the wrapper that is rendered. -/
theorem top_first_page (lower : Char → Char) (spare : Bool) (b : Builder) (w : BytesWriter)
    (limit : Limit)
    (hop : b.optype = selectType ∨ b.optype = unionType)
    (hlim : b.limitation = some limit)
    (hN : 0 < limit.limitN) (hO : limit.offset = 0)
    (hkey : ToLower lower (TrimSpace limit.style) = MSSQL) :
    Renders lower spare b w
      (SetNestedFlag true (From "" (some (cleared b))
        (Select ["TOP " ++ formatInt limit.limitN ++ " " ++
          Join (if b.selects.length = 0 then b.selects ++ ["*"] else b.selects) ","]))) := by
  intro WriteTo
  have g1 : ¬ ¬ (b.optype = selectType ∨ b.optype = unionType) := not_not.mpr hop
  have g2 : ¬ (limit.offset < 0 ∨ limit.limitN ≤ 0) := by omega
  have k1 : ¬ ToLower lower (TrimSpace limit.style) = ORACLE := by rw [hkey]; decide
  have k2 : ¬ (ToLower lower (TrimSpace limit.style) = SQLITE ∨
      ToLower lower (TrimSpace limit.style) = MYSQL ∨
      ToLower lower (TrimSpace limit.style) = POSTGRES) := by rw [hkey]; decide
  unfold limitWriteTo
  rw [if_neg g1]
  simp only [hlim]
  rw [if_neg g2]
  simp only [if_neg k1, if_neg k2, if_pos hkey, if_pos hO]
  exact ⟨rfl, rfl⟩

/-- TOP route, offset above 0, primary key given, select list not empty: the
wrapper that is rendered. -/
theorem top_later_page (lower : Char → Char) (spare : Bool) (b : Builder) (w : BytesWriter)
    (limit : Limit)
    (hop : b.optype = selectType ∨ b.optype = unionType)
    (hlim : b.limitation = some limit)
    (hN : 0 < limit.limitN) (hO : 0 < limit.offset)
    (hkey : ToLower lower (TrimSpace limit.style) = MSSQL)
    (hpk : TrimSpace limit.pk ≠ "")
    (hsel : b.selects ≠ []) :
    Renders lower spare b w
      (Where (Cond.And b.cond (NotIn limit.pk
          (SetNestedFlag true (From "" (some (cleared b))
            (Select ["TOP " ++ formatInt (wrapInt (limit.limitN + limit.offset)) ++ " " ++
              Join (b.selects ++ [limit.pk]) ","])))))
        (SetNestedFlag true (From ""
          (some (SetNestedFlag true (From "" (some (cleared b))
            (Select ["TOP " ++ formatInt (wrapInt (limit.limitN + limit.offset)) ++ " " ++
              Join (b.selects ++ [limit.pk]) ","]))))
          (Select ["TOP " ++ formatInt limit.limitN ++ " " ++ Join b.selects ","])))) := by
  intro WriteTo
  have g1 : ¬ ¬ (b.optype = selectType ∨ b.optype = unionType) := not_not.mpr hop
  have g2 : ¬ (limit.offset < 0 ∨ limit.limitN ≤ 0) := by omega
  have g3 : ¬ limit.offset = 0 := by omega
  have g4 : ¬ b.selects.length = 0 := by
    intro h
    exact hsel (List.length_eq_zero.mp h)
  have k1 : ¬ ToLower lower (TrimSpace limit.style) = ORACLE := by rw [hkey]; decide
  have k2 : ¬ (ToLower lower (TrimSpace limit.style) = SQLITE ∨
      ToLower lower (TrimSpace limit.style) = MYSQL ∨
      ToLower lower (TrimSpace limit.style) = POSTGRES) := by rw [hkey]; decide
  unfold limitWriteTo
  rw [if_neg g1]
  simp only [hlim]
  rw [if_neg g2]
  simp only [if_neg k1, if_neg k2, if_pos hkey, if_neg g3, if_neg hpk, if_neg g4]
  exact ⟨rfl, rfl⟩

/-! ## Helper lemmas: rendering the wrappers -/

/-- Joining a single item gives the item. -/
theorem Join_single (x sep : String) : Join [x] sep = x := by
  simp [Join, String.intercalate, String.intercalate.go]

/-- The SELECT writer on a wrapper as the pagination path builds them: a
SELECT over a nested SELECT or UNION, with no dialect, grouping, having or
ordering of its own, whose nested render appends text T and arguments A. -/
theorem selectWriteTo_wrapper (sub : Renderer) (f q : Builder) (w : BytesWriter)
    (T : String) (A : List Value)
    (hq : f.subQuery = some q)
    (hop : q.optype = selectType ∨ q.optype = unionType)
    (hd : f.dialect = "") (hg : f.groupBy = "") (hh : f.having = "") (ho : f.orderBy = "")
    (hu : ¬ (f.cond.IsValid = true ∧ f.tableName = ""))
    (hsub : ∀ w1, sub q w1 = (none, (w1.Write T).Append A)) :
    selectWriteTo sub f w =
      (if f.cond.IsValid = true then
        Cond.WriteTo sub f.cond
          ((((((w.Write ("SELECT " ++
            (if f.selects.length = 0 then "*" else Join f.selects ","))).Write " FROM (").Write
              T).Append A).Write (if f.tableName = "" then ")" else ") " ++ f.tableName)).Write
                " WHERE ")
      else
        (none, ((((w.Write ("SELECT " ++
            (if f.selects.length = 0 then "*" else Join f.selects ","))).Write " FROM (").Write
              T).Append A).Write (if f.tableName = "" then ")" else ") " ++ f.tableName))) := by
  have h0 : ¬ (f.tableName = "" ∧ f.subQuery.isNone = true) := by
    rw [hq]; simp
  have h1 : ¬ ¬ (q.optype = selectType ∨ q.optype = unionType) := not_not.mpr hop
  have h2 : ¬ (q.dialect ≠ "" ∧ f.dialect ≠ "" ∧ f.dialect ≠ q.dialect) := by
    rw [hd]; simp
  unfold selectWriteTo
  rw [if_neg h0]
  simp only [hq, if_neg hu, if_neg h1, if_neg h2, hsub, hg, hh, ho, if_true]
  by_cases hv : f.cond.IsValid = true
  · simp only [hv, if_true]
    cases hc : (Cond.WriteTo sub f.cond
      ((((((w.Write ("SELECT " ++
            (if f.selects.length = 0 then "*" else Join f.selects ","))).Write " FROM (").Write
              T).Append A).Write (if f.tableName = "" then ")" else ") " ++ f.tableName)).Write
                " WHERE ")) with
    | mk e w2 =>
      cases e <;> rfl
  · simp only [hv]
    rfl

/-! ## Helper lemmas: the state the call leaves -/

/-- After validation the receiver is left with its pagination erased, and on
the ROWNUM route with one item appended to its select list: `ROWNUM RN`, or
`RN` when offset is above 0 and the select list had spare capacity; whatever
the render call does. -/
theorem limitWriteTo_receiver (lower : Char → Char) (spare : Bool) (WriteTo : Renderer) (b : Builder)
    (w : BytesWriter) (limit : Limit)
    (hop : b.optype = selectType ∨ b.optype = unionType)
    (hlim : b.limitation = some limit)
    (hN : 0 < limit.limitN) (hO : 0 ≤ limit.offset) :
    (limitWriteTo lower spare WriteTo b w).2.1 =
      if ToLower lower (TrimSpace limit.style) = ORACLE then
        (if limit.offset = 0 then withRownum b
          else if spare = true then overwritten b else withRownum b)
      else cleared b := by
  have g1 : ¬ ¬ (b.optype = selectType ∨ b.optype = unionType) := not_not.mpr hop
  have g2 : ¬ (limit.offset < 0 ∨ limit.limitN ≤ 0) := by omega
  unfold limitWriteTo
  rw [if_neg g1]
  simp only [hlim]
  rw [if_neg g2]
  by_cases k1 : ToLower lower (TrimSpace limit.style) = ORACLE
  · simp only [if_pos k1]
    cases spare <;> split_ifs <;> rfl
  · simp only [if_neg k1]
    split_ifs <;> rfl

/-- After validation the call does not read the writer it is given. -/
theorem limitWriteTo_flushes (lower : Char → Char) (spare : Bool) (WriteTo : Renderer) (b : Builder)
    (w1 w2 : BytesWriter) (limit : Limit)
    (hop : b.optype = selectType ∨ b.optype = unionType)
    (hlim : b.limitation = some limit)
    (hN : 0 < limit.limitN) (hO : 0 ≤ limit.offset) :
    limitWriteTo lower spare WriteTo b w1 = limitWriteTo lower spare WriteTo b w2 := by
  have g1 : ¬ ¬ (b.optype = selectType ∨ b.optype = unionType) := not_not.mpr hop
  have g2 : ¬ (limit.offset < 0 ∨ limit.limitN ≤ 0) := by omega
  unfold limitWriteTo
  rw [if_neg g1, if_neg g1]
  simp only [hlim]
  rw [if_neg g2, if_neg g2]

/-- The pagination path after validation, route by route: the dispatch on the
normalised style with the pagination erased and the writer flushed. -/
theorem limitWriteTo_routes (lower : Char → Char) (spare : Bool) (WriteTo : Renderer) (b : Builder)
    (w : BytesWriter) (limit : Limit)
    (hop : b.optype = selectType ∨ b.optype = unionType)
    (hlim : b.limitation = some limit)
    (hN : 0 < limit.limitN) (hO : 0 ≤ limit.offset) :
    limitWriteTo lower spare WriteTo b w =
      if ToLower lower (TrimSpace limit.style) = ORACLE then
        if limit.offset = 0 then
          ((WriteTo (Where (Lte "at.ROWNUM" limit.limitN)
              (From "at" (some (withRownum b)) (Select b.selects))) BytesWriter.reset).1,
            withRownum b,
            (WriteTo (Where (Lte "at.ROWNUM" limit.limitN)
              (From "at" (some (withRownum b)) (Select b.selects))) BytesWriter.reset).2)
        else if b.selects.length = 0 then
          (some Error.ErrNotSupportType,
            (if spare = true then overwritten b else withRownum b), BytesWriter.reset)
        else
          ((WriteTo (Where (Gt "att.RN" limit.offset)
              (From "att"
                (some (Where (Lte "at.ROWNUM" (wrapInt (limit.offset + limit.limitN)))
                  (From "at" (some (if spare = true then overwritten b else withRownum b))
                    (Select (b.selects ++ ["RN"])))))
                (Select b.selects))) BytesWriter.reset).1,
            (if spare = true then overwritten b else withRownum b),
            (WriteTo (Where (Gt "att.RN" limit.offset)
              (From "att"
                (some (Where (Lte "at.ROWNUM" (wrapInt (limit.offset + limit.limitN)))
                  (From "at" (some (if spare = true then overwritten b else withRownum b))
                    (Select (b.selects ++ ["RN"])))))
                (Select b.selects))) BytesWriter.reset).2)
      else if ToLower lower (TrimSpace limit.style) = SQLITE ∨
          ToLower lower (TrimSpace limit.style) = MYSQL ∨
          ToLower lower (TrimSpace limit.style) = POSTGRES then
        if limit.offset = 0 then
          (none, cleared b,
            (WriteTo (cleared b) BytesWriter.reset).2.Write (" LIMIT " ++ formatInt limit.limitN))
        else
          (none, cleared b,
            (WriteTo (cleared b) BytesWriter.reset).2.Write (" LIMIT " ++ formatInt limit.limitN ++
              " OFFSET " ++ formatInt limit.offset))
      else if ToLower lower (TrimSpace limit.style) = MSSQL then
        if limit.offset = 0 then
          ((WriteTo (SetNestedFlag true (From "" (some (cleared b))
              (Select ["TOP " ++ formatInt limit.limitN ++ " " ++
                Join (if b.selects.length = 0 then b.selects ++ ["*"] else b.selects) ","])))
              BytesWriter.reset).1,
            cleared b,
            (WriteTo (SetNestedFlag true (From "" (some (cleared b))
              (Select ["TOP " ++ formatInt limit.limitN ++ " " ++
                Join (if b.selects.length = 0 then b.selects ++ ["*"] else b.selects) ","])))
              BytesWriter.reset).2)
        else if TrimSpace limit.pk = "" then
          (some (Error.New "Please assign a PK for MsSQL LIMIT operation"), cleared b,
            BytesWriter.reset)
        else if b.selects.length = 0 then
          (some Error.ErrNotSupportType, cleared b, BytesWriter.reset)
        else
          ((WriteTo (Where (Cond.And b.cond (NotIn limit.pk
                (SetNestedFlag true (From "" (some (cleared b))
                  (Select ["TOP " ++ formatInt (wrapInt (limit.limitN + limit.offset)) ++ " " ++
                    Join (b.selects ++ [limit.pk]) ","])))))
              (SetNestedFlag true (From ""
                (some (SetNestedFlag true (From "" (some (cleared b))
                  (Select ["TOP " ++ formatInt (wrapInt (limit.limitN + limit.offset)) ++ " " ++
                    Join (b.selects ++ [limit.pk]) ","]))))
                (Select ["TOP " ++ formatInt limit.limitN ++ " " ++ Join b.selects ","]))))
              BytesWriter.reset).1,
            cleared b,
            (WriteTo (Where (Cond.And b.cond (NotIn limit.pk
                (SetNestedFlag true (From "" (some (cleared b))
                  (Select ["TOP " ++ formatInt (wrapInt (limit.limitN + limit.offset)) ++ " " ++
                    Join (b.selects ++ [limit.pk]) ","])))))
              (SetNestedFlag true (From ""
                (some (SetNestedFlag true (From "" (some (cleared b))
                  (Select ["TOP " ++ formatInt (wrapInt (limit.limitN + limit.offset)) ++ " " ++
                    Join (b.selects ++ [limit.pk]) ","]))))
                (Select ["TOP " ++ formatInt limit.limitN ++ " " ++ Join b.selects ","]))))
              BytesWriter.reset).2)
      else
        (some Error.ErrNotSupportType, cleared b, BytesWriter.reset) := by
  have g1 : ¬ ¬ (b.optype = selectType ∨ b.optype = unionType) := not_not.mpr hop
  have g2 : ¬ (limit.offset < 0 ∨ limit.limitN ≤ 0) := by omega
  unfold limitWriteTo
  rw [if_neg g1]
  simp only [hlim]
  rw [if_neg g2]
  rfl

/-- Every Builder that the rewrite of `b` may render is without pagination
spec. -/
theorem Rewritten_limitation (b q : Builder) (h : Rewritten b q) : q.limitation = none := by
  cases h with
  | erased => rfl
  | rownum => rfl
  | overwritten => rfl
  | wrapper _ _ hlim _ _ => exact hlim

/-- After validation the only Builders on which the call invokes a render are
rewrites of the receiver: two render calls that agree on them give the same
result. -/
theorem limitWriteTo_footprint (lower : Char → Char) (spare : Bool) (W1 W2 : Renderer) (b : Builder)
    (w : BytesWriter) (limit : Limit)
    (hop : b.optype = selectType ∨ b.optype = unionType)
    (hlim : b.limitation = some limit)
    (hN : 0 < limit.limitN) (hO : 0 ≤ limit.offset)
    (hW : ∀ q w1, Rewritten b q → W1 q w1 = W2 q w1) :
    limitWriteTo lower spare W1 b w = limitWriteTo lower spare W2 b w := by
  have r0 : Rewritten b (cleared b) := Rewritten.erased
  have r1 : Rewritten b (withRownum b) := Rewritten.rownum
  have r2 : Rewritten b (if spare = true then overwritten b else withRownum b) := by
    cases spare
    · exact Rewritten.rownum
    · exact Rewritten.overwritten
  rw [limitWriteTo_routes lower spare W1 b w limit hop hlim hN hO,
    limitWriteTo_routes lower spare W2 b w limit hop hlim hN hO]
  rw [hW _ BytesWriter.reset r0,
    hW _ BytesWriter.reset (Rewritten.wrapper _ _ rfl rfl r1 :
      Rewritten b (Where (Lte "at.ROWNUM" limit.limitN)
        (From "at" (some (withRownum b)) (Select b.selects)))),
    hW _ BytesWriter.reset (Rewritten.wrapper _ _ rfl rfl (Rewritten.wrapper _ _ rfl rfl r2) :
      Rewritten b (Where (Gt "att.RN" limit.offset)
        (From "att"
          (some (Where (Lte "at.ROWNUM" (wrapInt (limit.offset + limit.limitN)))
            (From "at" (some (if spare = true then overwritten b else withRownum b))
              (Select (b.selects ++ ["RN"])))))
          (Select b.selects)))),
    hW _ BytesWriter.reset (Rewritten.wrapper _ _ rfl rfl r0 :
      Rewritten b (SetNestedFlag true (From "" (some (cleared b))
        (Select ["TOP " ++ formatInt limit.limitN ++ " " ++
          Join (if b.selects.length = 0 then b.selects ++ ["*"] else b.selects) ","])))),
    hW _ BytesWriter.reset (Rewritten.wrapper _ _ rfl rfl (Rewritten.wrapper _ _ rfl rfl r0) :
      Rewritten b (Where (Cond.And b.cond (NotIn limit.pk
          (SetNestedFlag true (From "" (some (cleared b))
            (Select ["TOP " ++ formatInt (wrapInt (limit.limitN + limit.offset)) ++ " " ++
              Join (b.selects ++ [limit.pk]) ","])))))
        (SetNestedFlag true (From ""
          (some (SetNestedFlag true (From "" (some (cleared b))
            (Select ["TOP " ++ formatInt (wrapInt (limit.limitN + limit.offset)) ++ " " ++
              Join (b.selects ++ [limit.pk]) ","]))))
          (Select ["TOP " ++ formatInt limit.limitN ++ " " ++ Join b.selects ","])))))]

/-- The SELECT writer on a Builder over a nested SELECT or UNION whose render
appends text T and arguments A, when the dialects do not conflict and the
Builder has no grouping, having or ordering clause. -/
theorem selectWriteTo_nested (sub : Renderer) (f q : Builder) (w : BytesWriter)
    (T : String) (A : List Value)
    (hq : f.subQuery = some q)
    (hop : q.optype = selectType ∨ q.optype = unionType)
    (hd : ¬ (q.dialect ≠ "" ∧ f.dialect ≠ "" ∧ f.dialect ≠ q.dialect))
    (hg : f.groupBy = "") (hh : f.having = "") (ho : f.orderBy = "")
    (hu : ¬ (f.cond.IsValid = true ∧ f.tableName = ""))
    (hsub : ∀ w1, sub q w1 = (none, (w1.Write T).Append A)) :
    selectWriteTo sub f w =
      (if f.cond.IsValid = true then
        Cond.WriteTo sub f.cond
          ((((((w.Write ("SELECT " ++
            (if f.selects.length = 0 then "*" else Join f.selects ","))).Write " FROM (").Write
              T).Append A).Write (if f.tableName = "" then ")" else ") " ++ f.tableName)).Write
                " WHERE ")
      else
        (none, ((((w.Write ("SELECT " ++
            (if f.selects.length = 0 then "*" else Join f.selects ","))).Write " FROM (").Write
              T).Append A).Write (if f.tableName = "" then ")" else ") " ++ f.tableName))) := by
  have h0 : ¬ (f.tableName = "" ∧ f.subQuery.isNone = true) := by
    rw [hq]; simp
  have h1 : ¬ ¬ (q.optype = selectType ∨ q.optype = unionType) := not_not.mpr hop
  unfold selectWriteTo
  rw [if_neg h0]
  simp only [hq, if_neg hu, if_neg h1, if_neg hd, hsub, hg, hh, ho, if_true]
  by_cases hv : f.cond.IsValid = true
  · simp only [hv, if_true]
    cases hc : (Cond.WriteTo sub f.cond
      ((((((w.Write ("SELECT " ++
            (if f.selects.length = 0 then "*" else Join f.selects ","))).Write " FROM (").Write
              T).Append A).Write (if f.tableName = "" then ")" else ") " ++ f.tableName)).Write
                " WHERE ")) with
    | mk e w2 =>
      cases e <;> rfl
  · simp only [hv]
    rfl

/-- The SELECT writer on a Builder over a nested source without alias and with
a non-empty filter stops with `ErrUnnamedDerivedTable`. -/
theorem selectWriteTo_unnamed (sub : Renderer) (f q : Builder) (w : BytesWriter)
    (hq : f.subQuery = some q) (halias : f.tableName = "")
    (hc : f.cond.IsValid = true) :
    (selectWriteTo sub f w).1 = some Error.ErrUnnamedDerivedTable := by
  have h0 : ¬ (f.tableName = "" ∧ f.subQuery.isNone = true) := by
    rw [hq]; simp
  have hu : f.cond.IsValid = true ∧ f.tableName = "" := ⟨hc, halias⟩
  unfold selectWriteTo
  rw [if_neg h0]
  simp only [hq, if_pos hu]

/-! ## Helper lemmas: the arguments of a render -/

/-- Writing text leaves the arguments of the writer as they are. -/
theorem Write_args (w : BytesWriter) (s : String) : (w.Write s).args = w.args := rfl

/-- The render of a condition leaves an error and arguments that depend on the
arguments already written only, when the nested renders do. -/
theorem Cond_WriteTo_argsOnly (sub : Renderer) (hsub : ∀ q, ArgsOnly (sub q))
    (c : Cond Builder) : ArgsOnly (Cond.WriteTo sub c) := by
  induction c with
  | empty =>
    intro w1 w2 h
    constructor <;> simp [Cond.WriteTo, h]
  | expr sql args =>
    intro w1 w2 h
    constructor <;> simp [Cond.WriteTo, BytesWriter.Write, BytesWriter.Append, h]
  | lte col v =>
    intro w1 w2 h
    constructor <;> simp [Cond.WriteTo, BytesWriter.Write, BytesWriter.Append, h]
  | gt col v =>
    intro w1 w2 h
    constructor <;> simp [Cond.WriteTo, BytesWriter.Write, BytesWriter.Append, h]
  | notIn col q =>
    intro w1 w2 h
    have hs := hsub q (w1.Write (col ++ " NOT IN (")) (w2.Write (col ++ " NOT IN (")) h
    simp only [Cond.WriteTo]
    rw [hs.1]
    cases (sub q (w2.Write (col ++ " NOT IN ("))).1 with
    | none => exact ⟨rfl, hs.2⟩
    | some e => exact ⟨rfl, hs.2⟩
  | and l r ihl ihr =>
    intro w1 w2 h
    simp only [Cond.WriteTo]
    by_cases hl : l.IsValid = true
    · by_cases hr : r.IsValid = true
      · simp only [hl, hr, not_true_eq_false, if_false]
        have h1 := ihl w1 w2 h
        rw [h1.1]
        cases (Cond.WriteTo sub l w2).1 with
        | some e => exact ⟨rfl, h1.2⟩
        | none => exact ihr _ _ h1.2
      · simp only [hl, hr, not_true_eq_false, if_false, not_false_eq_true, if_true]
        exact ihl w1 w2 h
    · simp only [hl, not_false_eq_true, if_true]
      exact ihr w1 w2 h

/-- The render of the branches of a UNION leaves an error and arguments that
depend on the arguments already written only, when the renders of the branches
do. -/
theorem unionBranches_argsOnly (upper : Char → Char) (sub : Renderer)
    (hsub : ∀ q, ArgsOnly (sub q)) (bs : List (String × Builder)) :
    ∀ first : Bool, ArgsOnly (unionBranches upper sub bs first) := by
  induction bs with
  | nil =>
    intro first w1 w2 h
    constructor <;> simp [unionBranches, h]
  | cons x rest ih =>
    intro first w1 w2 h
    obtain ⟨tp, q⟩ := x
    have hs := hsub q
      (if first = true then w1.Write "(" else w1.Write (" UNION " ++ ToUpper upper tp ++ " ("))
      (if first = true then w2.Write "(" else w2.Write (" UNION " ++ ToUpper upper tp ++ " ("))
      (by cases first <;> exact h)
    simp only [unionBranches]
    rw [hs.1]
    cases (sub q (if first = true then w2.Write "(" else
        w2.Write (" UNION " ++ ToUpper upper tp ++ " ("))).1 with
    | some e => exact ⟨rfl, hs.2⟩
    | none => exact ih false _ _ hs.2

/-- The SELECT writer is its steps in sequence: the check of the source, the
select list, the source step and the clauses. -/
theorem selectWriteTo_steps (sub : Renderer) (b : Builder) (w : BytesWriter) :
    selectWriteTo sub b w =
      if b.tableName = "" ∧ b.subQuery.isNone then (some Error.ErrNoTableName, w)
      else selectClauses sub b (selectSource sub b
        (w.Write ("SELECT " ++ (if b.selects.length = 0 then "*" else Join b.selects ",")))) := by
  rfl

/-- The source step leaves an error and arguments that depend on the arguments
already written only. -/
theorem selectSource_args (sub : Renderer) (hsub : ∀ q, ArgsOnly (sub q))
    (b : Builder) : ArgsOnly (selectSource sub b) := by
  intro x1 x2 hx
  unfold selectSource
  cases b.subQuery with
  | none => exact ⟨rfl, hx⟩
  | some q =>
    have hs := hsub q (x1.Write " FROM (") (x2.Write " FROM (") hx
    simp only []
    by_cases c1 : b.cond.IsValid = true ∧ b.tableName = ""
    · simp only [if_pos c1]
      exact ⟨trivial, hx⟩
    · by_cases c2 : ¬ (q.optype = selectType ∨ q.optype = unionType)
      · simp only [if_neg c1, if_pos c2]
        exact ⟨trivial, hx⟩
      · by_cases c3 : q.dialect ≠ "" ∧ b.dialect ≠ "" ∧ b.dialect ≠ q.dialect
        · simp only [if_neg c1, if_neg c2, if_pos c3]
          exact ⟨trivial, hx⟩
        · simp only [if_neg c1, if_neg c2, if_neg c3]
          rw [hs.1]
          cases (sub q (x2.Write " FROM (")).1 with
          | some e => exact ⟨rfl, hs.2⟩
          | none => exact ⟨rfl, hs.2⟩

/-- The clauses leave an error and arguments that depend on the error and the
arguments of the source step only. -/
theorem selectClauses_args (sub : Renderer) (hsub : ∀ q, ArgsOnly (sub q))
    (b : Builder) (s1 s2 : Option Error × BytesWriter)
    (he : s1.1 = s2.1) (ha : s1.2.args = s2.2.args) :
    (selectClauses sub b s1).1 = (selectClauses sub b s2).1 ∧
    (selectClauses sub b s1).2.args = (selectClauses sub b s2).2.args := by
  obtain ⟨e1, y1⟩ := s1
  obtain ⟨e2, y2⟩ := s2
  have he2 : e1 = e2 := he
  have ha2 : y1.args = y2.args := ha
  subst he2
  unfold selectClauses
  cases e1 with
  | some e => exact ⟨rfl, ha2⟩
  | none =>
    simp only []
    by_cases hv : b.cond.IsValid = true
    · have hc := Cond_WriteTo_argsOnly sub hsub b.cond (y1.Write " WHERE ")
        (y2.Write " WHERE ") ha2
      simp only [hv, if_true]
      rw [hc.1]
      cases (Cond.WriteTo sub b.cond (y2.Write " WHERE ")).1 with
      | some e => exact ⟨rfl, hc.2⟩
      | none =>
        refine ⟨rfl, ?_⟩
        simp only []
        split_ifs <;> exact hc.2
    · simp only [if_neg hv]
      refine ⟨trivial, ?_⟩
      split_ifs <;> exact ha2

/-- The SELECT writer leaves an error and arguments that depend neither on the
select list of the Builder nor on the text already written: the items of the
select list bind no argument. -/
theorem selectWriteTo_selects_args (sub : Renderer) (hsub : ∀ q, ArgsOnly (sub q))
    (q : Builder) (cols : List String) (w1 w2 : BytesWriter) (h : w1.args = w2.args) :
    (selectWriteTo sub { q with selects := cols } w1).1 = (selectWriteTo sub q w2).1 ∧
    (selectWriteTo sub { q with selects := cols } w1).2.args =
      (selectWriteTo sub q w2).2.args := by
  rw [selectWriteTo_steps, selectWriteTo_steps]
  by_cases h0 : q.tableName = "" ∧ q.subQuery.isNone = true
  · have h0c : ({ q with selects := cols } : Builder).tableName = "" ∧
        ({ q with selects := cols } : Builder).subQuery.isNone = true := h0
    rw [if_pos h0, if_pos h0c]
    exact ⟨rfl, h⟩
  · have h0c : ¬ (({ q with selects := cols } : Builder).tableName = "" ∧
        ({ q with selects := cols } : Builder).subQuery.isNone = true) := h0
    rw [if_neg h0, if_neg h0c]
    have hsrc := selectSource_args sub hsub q
      (w1.Write ("SELECT " ++ (if cols.length = 0 then "*" else Join cols ",")))
      (w2.Write ("SELECT " ++ (if q.selects.length = 0 then "*" else Join q.selects ",")))
      h
    exact selectClauses_args sub hsub q _ _ hsrc.1 hsrc.2

/-- The dispatch on the statement kind, on a SELECT or UNION Builder, leaves
an error and arguments that depend neither on the select list of the Builder
nor on the text already written. -/
theorem WriteTo_selects_args (upper : Char → Char) (other sub : Renderer)
    (hsub : ∀ q, ArgsOnly (sub q)) (q : Builder)
    (hk : q.optype = selectType ∨ q.optype = unionType)
    (cols : List String) (w1 w2 : BytesWriter) (h : w1.args = w2.args) :
    (Builder.WriteTo upper other sub { q with selects := cols } w1).1 =
      (Builder.WriteTo upper other sub q w2).1 ∧
    (Builder.WriteTo upper other sub { q with selects := cols } w1).2.args =
      (Builder.WriteTo upper other sub q w2).2.args := by
  rcases hk with hk | hk
  · have e1 : Builder.WriteTo upper other sub { q with selects := cols } w1 =
        selectWriteTo sub { q with selects := cols } w1 := by
      unfold Builder.WriteTo
      simp only [hk]
    have e2 : Builder.WriteTo upper other sub q w2 = selectWriteTo sub q w2 := by
      unfold Builder.WriteTo
      simp only [hk]
    rw [e1, e2]
    exact selectWriteTo_selects_args sub hsub q cols w1 w2 h
  · have e1 : Builder.WriteTo upper other sub { q with selects := cols } w1 =
        unionBranches upper sub q.unions true w1 := by
      unfold Builder.WriteTo
      simp only [hk]
      rfl
    have e2 : Builder.WriteTo upper other sub q w2 =
        unionBranches upper sub q.unions true w2 := by
      unfold Builder.WriteTo
      simp only [hk]
      rfl
    rw [e1, e2]
    exact unionBranches_argsOnly upper sub hsub q.unions true w1 w2 h

/-- The SELECT writer on the ROWNUM wrapper of offset 0: the error of the
nested render if it fails, and otherwise the nested output followed by the
alias, the filter text and the row bound as bound argument. -/
theorem selectWriteTo_rownum_wrapper (D : Renderer) (b : Builder) (N : Int)
    (hop : b.optype = selectType ∨ b.optype = unionType) :
    selectWriteTo D (Where (Lte "at.ROWNUM" N)
        (From "at" (some (withRownum b)) (Select b.selects))) BytesWriter.reset =
      match (D (withRownum b) ((BytesWriter.reset.Write ("SELECT " ++
          (if b.selects.length = 0 then "*" else Join b.selects ","))).Write " FROM (")).1 with
      | some e => (some e, (D (withRownum b) ((BytesWriter.reset.Write ("SELECT " ++
          (if b.selects.length = 0 then "*" else Join b.selects ","))).Write " FROM (")).2)
      | none => (none, ((((D (withRownum b) ((BytesWriter.reset.Write ("SELECT " ++
          (if b.selects.length = 0 then "*" else Join b.selects ","))).Write " FROM (")).2.Write
            ") at").Write " WHERE ").Write "at.ROWNUM<=?").Append [Value.int N]) := by
  rw [selectWriteTo_steps]
  have h0 : ¬ ((Where (Lte "at.ROWNUM" N)
        (From "at" (some (withRownum b)) (Select b.selects))).tableName = "" ∧
      (Where (Lte "at.ROWNUM" N)
        (From "at" (some (withRownum b)) (Select b.selects))).subQuery.isNone = true) := by
    intro h
    have ht : ("at" : String) = "" := h.1
    exact absurd ht (by decide)
  rw [if_neg h0]
  show selectClauses D _ (selectSource D _ (BytesWriter.reset.Write ("SELECT " ++
    (if b.selects.length = 0 then "*" else Join b.selects ",")))) = _
  have hsrc : selectSource D (Where (Lte "at.ROWNUM" N)
        (From "at" (some (withRownum b)) (Select b.selects)))
        (BytesWriter.reset.Write ("SELECT " ++
          (if b.selects.length = 0 then "*" else Join b.selects ","))) =
      match (D (withRownum b) ((BytesWriter.reset.Write ("SELECT " ++
          (if b.selects.length = 0 then "*" else Join b.selects ","))).Write " FROM (")).1 with
      | some e => (some e, (D (withRownum b) ((BytesWriter.reset.Write ("SELECT " ++
          (if b.selects.length = 0 then "*" else Join b.selects ","))).Write " FROM (")).2)
      | none => (none, (D (withRownum b) ((BytesWriter.reset.Write ("SELECT " ++
          (if b.selects.length = 0 then "*" else Join b.selects ","))).Write " FROM (")).2.Write
            ") at") := by
    have hq2 : b.optype = selectType ∨ b.optype = unionType := hop
    simp [selectSource, Where, From, Select, NewCond, Lte, Cond.IsValid, withRownum, hq2]
  rw [hsrc]
  cases (D (withRownum b) ((BytesWriter.reset.Write ("SELECT " ++
      (if b.selects.length = 0 then "*" else Join b.selects ","))).Write " FROM (")).1 with
  | some e => rfl
  | none => rfl

/-! ## The claims -/

/-- C1: on the native LIMIT/OFFSET styles the writer ends with the text and
arguments that rendering the Builder with its pagination erased leaves on the
flushed writer, followed by ` LIMIT N` (offset 0) or ` LIMIT N OFFSET O`
(offset above 0); the arguments are unchanged. -/
theorem C1_native_limit_appended (lower : Char → Char) (spare : Bool) (WriteTo : Renderer)
    (b : Builder) (w : BytesWriter) (limit : Limit) (T : String) (A : List Value)
    (hop : b.optype = selectType ∨ b.optype = unionType)
    (hlim : b.limitation = some limit)
    (hN : 0 < limit.limitN) (hO : 0 ≤ limit.offset)
    (hkey : ToLower lower (TrimSpace limit.style) = SQLITE ∨
      ToLower lower (TrimSpace limit.style) = MYSQL ∨
      ToLower lower (TrimSpace limit.style) = POSTGRES)
    (hr : (WriteTo (cleared b) BytesWriter.reset).2 = { writer := T, args := A }) :
    (limit.offset = 0 →
      (limitWriteTo lower spare WriteTo b w).2.2.writer = T ++ " LIMIT " ++ formatInt limit.limitN) ∧
    (0 < limit.offset →
      (limitWriteTo lower spare WriteTo b w).2.2.writer =
        T ++ " LIMIT " ++ formatInt limit.limitN ++ " OFFSET " ++ formatInt limit.offset) ∧
    (limitWriteTo lower spare WriteTo b w).2.2.args = A := by
  have h1 : ¬ ¬ (b.optype = selectType ∨ b.optype = unionType) := not_not.mpr hop
  have h2 : ¬ (limit.offset < 0 ∨ limit.limitN ≤ 0) := by omega
  have h3 : ¬ ToLower lower (TrimSpace limit.style) = ORACLE := by
    rcases hkey with h | h | h <;> rw [h] <;> decide
  have hr2 : (WriteTo { b with limitation := none } BytesWriter.reset).2 =
      { writer := T, args := A } := hr
  unfold limitWriteTo
  rw [if_neg h1]
  simp only [hlim]
  rw [if_neg h2]
  simp only [if_neg h3, if_pos hkey, hr2]
  refine ⟨?_, ?_, ?_⟩
  · intro h0
    simp [h0, BytesWriter.Write, String.append_assoc]
  · intro h0
    have : ¬ limit.offset = 0 := by omega
    simp [this, BytesWriter.Write, String.append_assoc]
  · by_cases h0 : limit.offset = 0 <;> simp [h0, BytesWriter.Write]

/-- Witness of C1: `LIMIT 5 OFFSET 10` under the style ` MySQL ` on the example
query, rendered by the SELECT writer. -/
theorem C1_native_limit_appended_witness :
    (limitWriteTo asciiLower false (selectWriteTo noSub) (exPaged " MySQL " 10 5 "") exWriter).2.2 =
      { writer := "SELECT a FROM t WHERE x=? LIMIT 5 OFFSET 10", args := [Value.int 1] } := by
  have h := C1_native_limit_appended asciiLower false (selectWriteTo noSub)
    (exPaged " MySQL " 10 5 "") exWriter
    { style := " MySQL ", offset := 10, limitN := 5, pk := "" }
    "SELECT a FROM t WHERE x=?" [Value.int 1]
    (Or.inl rfl) rfl (by decide) (by decide) (Or.inr (Or.inl (by decide))) (by decide)
  have h2 := h.2.1 (by decide)
  have h3 := h.2.2
  cases hw : (limitWriteTo asciiLower false (selectWriteTo noSub) (exPaged " MySQL " 10 5 "") exWriter).2.2 with
  | mk t a =>
    rw [hw] at h2 h3
    simp only at h2 h3
    rw [h2, h3]
    decide

/-- C2: a SELECT or UNION Builder whose pagination spec has a count that is not
positive or a negative offset makes `limitWriteTo` return the offset/limitN
error, for every dialect style, case table and render call, leaving the
Builder and the writer as they were: the check precedes the dispatch. -/
theorem C2_invalid_pagination_rejected (lower : Char → Char) (spare : Bool) (WriteTo : Renderer)
    (b : Builder) (w : BytesWriter) (limit : Limit)
    (hop : b.optype = selectType ∨ b.optype = unionType)
    (hlim : b.limitation = some limit)
    (hbad : limit.limitN ≤ 0 ∨ limit.offset < 0) :
    limitWriteTo lower spare WriteTo b w =
      (some (Error.New "Unexpected offset/limitN, set a negative one?"), b, w) := by
  have h1 : ¬ ¬ (b.optype = selectType ∨ b.optype = unionType) := not_not.mpr hop
  have h2 : limit.offset < 0 ∨ limit.limitN ≤ 0 := hbad.symm
  unfold limitWriteTo
  rw [if_neg h1]
  simp only [hlim]
  rw [if_pos h2]

/-- Witness of C2: count 0 under the recognised style `mysql`. -/
theorem C2_invalid_pagination_rejected_witness :
    limitWriteTo asciiLower false noSub (exPaged "mysql" 3 0 "") exWriter =
      (some (Error.New "Unexpected offset/limitN, set a negative one?"),
        exPaged "mysql" 3 0 "", exWriter) :=
  C2_invalid_pagination_rejected asciiLower false noSub (exPaged "mysql" 3 0 "") exWriter
    { style := "mysql", offset := 3, limitN := 0, pk := "" }
    (Or.inl rfl) rfl (Or.inl (by decide))

/-- C3: the ROWNUM rewrite at offset 0 evaluated on
`Select("a").From("t").Where(Expr("x=?", 1))` with style `oracle` and count 5:
for every render call the Builder rendered is the wrapper with select list
`a`, alias `at` and the original query extended by `ROWNUM RN` as nested
source, and its filter compares the column `at.ROWNUM` with 5, not the alias
`at.RN` of the synthetic column. -/
theorem C3_rownum_wrapper_filter_column :
    ∃ final : Builder, Renders asciiLower false (exPaged "oracle" 0 5 "") exWriter final ∧
      final.selects = ["a"] ∧ final.tableName = "at" ∧
      final.subQuery = some (withRownum (exPaged "oracle" 0 5 "")) ∧
      (withRownum (exPaged "oracle" 0 5 "")).selects = ["a", "ROWNUM RN"] ∧
      final.cond = Cond.lte "at.ROWNUM" (Value.int 5) ∧
      final.cond ≠ Cond.lte "at.RN" (Value.int 5) := by
  refine ⟨_, rownum_first_page asciiLower false (exPaged "oracle" 0 5 "") exWriter
    { style := "oracle", offset := 0, limitN := 5, pk := "" }
    (Or.inl rfl) rfl (by decide) rfl (by decide), rfl, rfl, rfl, rfl, rfl, ?_⟩
  intro h
  have h2 : Cond.lte "at.ROWNUM" (Value.int 5) = Cond.lte "at.RN" (Value.int 5) := h
  injection h2 with hcol _
  exact absurd hcol (by decide)

/-- C4 as stated fails under the rendering of comparisons that the tests show
for `Eq` (placeholder and bound operand): for the example query with style
`oracle`, offset 0 and count 5 the query alone binds the argument 1, and
`limitWriteTo` leaves the arguments 1 and 5, the row bound being bound to the
placeholder of `at.ROWNUM<=?`. -/
theorem C4_rownum_bound_argument_counterexample :
    (selectWriteTo noSub (cleared (exPaged "oracle" 0 5 "")) BytesWriter.reset).2.args =
      [Value.int 1] ∧
    (limitWriteTo asciiLower false (selectWriteTo (selectWriteTo noSub))
      (exPaged "oracle" 0 5 "") exWriter).2.2 =
      { writer := "SELECT a FROM (SELECT a,ROWNUM RN FROM t WHERE x=?) at WHERE at.ROWNUM<=?",
        args := [Value.int 1, Value.int 5] } ∧
    (limitWriteTo asciiLower false (selectWriteTo (selectWriteTo noSub))
      (exPaged "oracle" 0 5 "") exWriter).2.2.args ≠
      (selectWriteTo noSub (cleared (exPaged "oracle" 0 5 "")) BytesWriter.reset).2.args := by
  refine ⟨by decide, by decide, by decide⟩

/-- C4, amended: ROWNUM style, offset 0, count N above 0 and a non-empty select
list, the statements rendered by `Builder.WriteTo` (SELECT and UNION writer)
and the renders of the nested Builders of Q insensitive to the text already
written.  The error that `limitWriteTo` returns is the error of rendering Q
without pagination; and when Q renders without error, the argument list that
`limitWriteTo` leaves is the argument list of Q rendered without pagination
followed by one more argument, the row bound N: the synthetic column binds
nothing and the filter of the wrapper binds N to a placeholder. -/
theorem C4_rownum_arguments (lower upper : Char → Char) (spare : Bool)
    (other sub : Renderer) (b : Builder) (w : BytesWriter) (limit : Limit)
    (hop : b.optype = selectType ∨ b.optype = unionType)
    (hlim : b.limitation = some limit)
    (hN : 0 < limit.limitN) (hO : limit.offset = 0)
    (hkey : ToLower lower (TrimSpace limit.style) = ORACLE)
    (_hsel : b.selects ≠ [])
    (hsub : ∀ q, ArgsOnly (sub q)) :
    (limitWriteTo lower spare
        (Builder.WriteTo upper other (Builder.WriteTo upper other sub)) b w).1 =
      (Builder.WriteTo upper other sub (cleared b) BytesWriter.reset).1 ∧
    ((Builder.WriteTo upper other sub (cleared b) BytesWriter.reset).1 = none →
      (limitWriteTo lower spare
          (Builder.WriteTo upper other (Builder.WriteTo upper other sub)) b w).2.2.args =
        (Builder.WriteTo upper other sub (cleared b) BytesWriter.reset).2.args ++
          [Value.int limit.limitN]) := by
  have hR := rownum_first_page lower spare b w limit hop hlim hN hO hkey
    (Builder.WriteTo upper other (Builder.WriteTo upper other sub))
  have hfin : Builder.WriteTo upper other (Builder.WriteTo upper other sub)
      (Where (Lte "at.ROWNUM" limit.limitN)
        (From "at" (some (withRownum b)) (Select b.selects))) BytesWriter.reset =
      selectWriteTo (Builder.WriteTo upper other sub)
        (Where (Lte "at.ROWNUM" limit.limitN)
          (From "at" (some (withRownum b)) (Select b.selects))) BytesWriter.reset := rfl
  have hk := WriteTo_selects_args upper other sub hsub (cleared b) hop
    (b.selects ++ ["ROWNUM RN"])
    ((BytesWriter.reset.Write ("SELECT " ++
      (if b.selects.length = 0 then "*" else Join b.selects ","))).Write " FROM (")
    BytesWriter.reset rfl
  have hk1 : (Builder.WriteTo upper other sub (withRownum b)
      ((BytesWriter.reset.Write ("SELECT " ++
        (if b.selects.length = 0 then "*" else Join b.selects ","))).Write " FROM (")).1 =
      (Builder.WriteTo upper other sub (cleared b) BytesWriter.reset).1 := hk.1
  have hk2 : (Builder.WriteTo upper other sub (withRownum b)
      ((BytesWriter.reset.Write ("SELECT " ++
        (if b.selects.length = 0 then "*" else Join b.selects ","))).Write " FROM (")).2.args =
      (Builder.WriteTo upper other sub (cleared b) BytesWriter.reset).2.args := hk.2
  rw [hR.1, hR.2, hfin,
    selectWriteTo_rownum_wrapper (Builder.WriteTo upper other sub) b limit.limitN hop]
  rw [hk1]
  cases hres : (Builder.WriteTo upper other sub (cleared b) BytesWriter.reset).1 with
  | some e =>
    refine ⟨rfl, ?_⟩
    intro h
    exact absurd h (by simp)
  | none =>
    refine ⟨rfl, ?_⟩
    intro _
    show ((Builder.WriteTo upper other sub (withRownum b)
      ((BytesWriter.reset.Write ("SELECT " ++
        (if b.selects.length = 0 then "*" else Join b.selects ","))).Write " FROM (")).2.args ++
          [Value.int limit.limitN]) = _
    rw [hk2]

/-- Witness of C4 (amended): the example query, count 5; rendering it alone
binds 1, and `limitWriteTo` leaves 1 followed by 5. -/
theorem C4_rownum_arguments_witness :
    (limitWriteTo asciiLower false
        (Builder.WriteTo asciiUpper noSub (Builder.WriteTo asciiUpper noSub noSub))
        (exPaged "oracle" 0 5 "") exWriter).1 = none ∧
    (limitWriteTo asciiLower false
        (Builder.WriteTo asciiUpper noSub (Builder.WriteTo asciiUpper noSub noSub))
        (exPaged "oracle" 0 5 "") exWriter).2.2.args = [Value.int 1, Value.int 5] := by
  have h := C4_rownum_arguments asciiLower asciiUpper false noSub noSub
    (exPaged "oracle" 0 5 "") exWriter
    { style := "oracle", offset := 0, limitN := 5, pk := "" }
    (Or.inl rfl) rfl (by decide) rfl (by decide) (by decide)
    (fun _ w1 w2 hw => ⟨rfl, hw⟩)
  exact ⟨h.1.trans (by decide), (h.2 (by decide)).trans (by decide)⟩

/-- C5 as stated fails.  With style `oracle`, offset 9223372036854775807 and
count 1 the inner wrapper bounds the row number by -9223372036854775808, the
sum reduced to the 64-bit `int`, and no rendered wrapper has an inner filter
with the bound 9223372036854775808.  And with offset 10, count 5 and a select
list that has spare capacity, the source of the inner wrapper is the original
query with the select list `a`, `RN`: the synthetic column `ROWNUM RN` that
line 34 appended has been overwritten by line 39. -/
theorem C5_rownum_bound_wraps_counterexample :
    (∃ final inner : Builder,
      Renders asciiLower false (exPaged "oracle" 9223372036854775807 1 "") exWriter final ∧
      final.subQuery = some inner ∧
      inner.cond = Cond.lte "at.ROWNUM" (Value.int (-9223372036854775808))) ∧
    (¬ ∃ final inner : Builder,
      Renders asciiLower false (exPaged "oracle" 9223372036854775807 1 "") exWriter final ∧
      final.subQuery = some inner ∧
      ∃ col, inner.cond = Cond.lte col (Value.int (9223372036854775807 + 1))) ∧
    (∃ final inner src : Builder,
      Renders asciiLower true (exPaged "oracle" 10 5 "") exWriter final ∧
      final.subQuery = some inner ∧ inner.subQuery = some src ∧
      src.selects = ["a", "RN"]) := by
  have hact := rownum_later_page asciiLower false (exPaged "oracle" 9223372036854775807 1 "")
    exWriter { style := "oracle", offset := 9223372036854775807, limitN := 1, pk := "" }
    (Or.inl rfl) rfl (by decide) (by decide) (by decide) (by decide)
  have hspare := rownum_later_page asciiLower true (exPaged "oracle" 10 5 "")
    exWriter { style := "oracle", offset := 10, limitN := 5, pk := "" }
    (Or.inl rfl) rfl (by decide) (by decide) (by decide) (by decide)
  refine ⟨⟨_, _, hact, rfl, rfl⟩, ?_, ⟨_, _, _, hspare, rfl, rfl, rfl⟩⟩
  rintro ⟨final, inner, hR, hsub, col, hc⟩
  have hf := Renders_unique _ _ _ _ _ _ hR hact
  subst hf
  have hi : some inner = some (Where (Lte "at.ROWNUM"
      (wrapInt (9223372036854775807 + 1)))
      (From "at" (some (withRownum (exPaged "oracle" 9223372036854775807 1 "")))
        (Select ((exPaged "oracle" 9223372036854775807 1 "").selects ++ ["RN"])))) :=
    hsub.symm
  injection hi with hi
  subst hi
  have hc2 : (Cond.lte "at.ROWNUM" (Value.int (wrapInt (9223372036854775807 + 1))) :
      Cond Builder) = Cond.lte col (Value.int (9223372036854775807 + 1)) := hc
  injection hc2 with _ hv
  injection hv with hv
  exact absurd hv (by decide)

/-- C5, amended: ROWNUM style, offset O above 0, count N above 0 and a
non-empty select list S.  The rendered outer wrapper has select list S, the
inner wrapper under the alias `att` as source and the filter `att.RN > O`; the
inner wrapper has select list S followed by `RN`, the alias `at`, the filter
`at.ROWNUM <= k` on the row number, where k is O + N reduced to the 64-bit
`int` (O + N itself when that is below 2^63), and as source the original
query with its pagination erased and one item appended to its select list:
the synthetic column `ROWNUM RN` when the select list had no spare capacity. -/
theorem C5_rownum_two_level_wrapper (lower : Char → Char) (spare : Bool) (b : Builder)
    (w : BytesWriter) (limit : Limit)
    (hop : b.optype = selectType ∨ b.optype = unionType)
    (hlim : b.limitation = some limit)
    (hN : 0 < limit.limitN) (hO : 0 < limit.offset)
    (hkey : ToLower lower (TrimSpace limit.style) = ORACLE)
    (hsel : b.selects ≠ []) :
    ∃ final inner src : Builder, Renders lower spare b w final ∧
      final.selects = b.selects ∧ final.subQuery = some inner ∧
      final.tableName = "att" ∧ final.cond = Cond.gt "att.RN" (Value.int limit.offset) ∧
      inner.selects = b.selects ++ ["RN"] ∧ inner.subQuery = some src ∧
      inner.tableName = "at" ∧
      inner.cond = Cond.lte "at.ROWNUM" (Value.int (wrapInt (limit.offset + limit.limitN))) ∧
      (limit.offset + limit.limitN < 2 ^ 63 →
        wrapInt (limit.offset + limit.limitN) = limit.offset + limit.limitN) ∧
      { src with selects := b.selects } = cleared b ∧
      (∃ item, src.selects = b.selects ++ [item]) ∧
      (spare = false → src = withRownum b ∧ src.selects = b.selects ++ ["ROWNUM RN"]) := by
  refine ⟨_, _, _, rownum_later_page lower spare b w limit hop hlim hN hO hkey hsel,
    rfl, rfl, rfl, rfl, rfl, rfl, rfl, rfl, ?_, ?_, ?_, ?_⟩
  · intro hlt
    unfold wrapInt
    omega
  · cases spare <;> rfl
  · cases spare
    · exact ⟨"ROWNUM RN", rfl⟩
    · exact ⟨"RN", rfl⟩
  · intro hs
    subst hs
    exact ⟨rfl, rfl⟩

/-- Witness of C5 (amended): offset 10 and count 5 on the example query, whose
select list `Select("a")` has no spare capacity. -/
theorem C5_rownum_two_level_wrapper_witness :
    ∃ final inner src : Builder,
      Renders asciiLower false (exPaged "oracle" 10 5 "") exWriter final ∧
      final.selects = ["a"] ∧ final.subQuery = some inner ∧
      final.tableName = "att" ∧ final.cond = Cond.gt "att.RN" (Value.int 10) ∧
      inner.selects = ["a", "RN"] ∧ inner.subQuery = some src ∧
      inner.tableName = "at" ∧
      inner.cond = Cond.lte "at.ROWNUM" (Value.int (wrapInt (10 + 5))) ∧
      ((10 : Int) + 5 < 2 ^ 63 → wrapInt (10 + 5) = 10 + 5) ∧
      { src with selects := ["a"] } = cleared (exPaged "oracle" 10 5 "") ∧
      (∃ item, src.selects = ["a"] ++ [item]) ∧
      (false = false → src = withRownum (exPaged "oracle" 10 5 "") ∧
        src.selects = ["a"] ++ ["ROWNUM RN"]) :=
  C5_rownum_two_level_wrapper asciiLower false (exPaged "oracle" 10 5 "") exWriter
    { style := "oracle", offset := 10, limitN := 5, pk := "" }
    (Or.inl rfl) rfl (by decide) (by decide) (by decide) (by decide)

/-- C6 as stated fails, at style `mssql`, offset 9223372036854775807, count 1
and primary key `id` on the example query: the outer query that is rendered
has the inner query as its source under no alias, not the table `t` of the
original query, and the inner select item reads `TOP -9223372036854775808`,
the sum reduced to the 64-bit `int`. -/
theorem C6_top_outer_source_counterexample :
    (∃ final inner : Builder,
      Renders asciiLower false (exPaged "mssql" 9223372036854775807 1 "id") exWriter final ∧
      final.subQuery = some inner ∧ final.tableName = "" ∧
      inner.selects = ["TOP -9223372036854775808 a,id"]) ∧
    (¬ ∃ final : Builder,
      Renders asciiLower false (exPaged "mssql" 9223372036854775807 1 "id") exWriter final ∧
      final.tableName = (exPaged "mssql" 9223372036854775807 1 "id").tableName ∧
      final.subQuery = (exPaged "mssql" 9223372036854775807 1 "id").subQuery) ∧
    (¬ ∃ final inner : Builder,
      Renders asciiLower false (exPaged "mssql" 9223372036854775807 1 "id") exWriter final ∧
      final.cond = Cond.and (exPaged "mssql" 9223372036854775807 1 "id").cond
        (Cond.notIn "id" inner) ∧
      inner.selects = ["TOP " ++ formatInt (9223372036854775807 + 1) ++ " " ++
        Join ["a", "id"] ","]) := by
  have hact := top_later_page asciiLower false (exPaged "mssql" 9223372036854775807 1 "id")
    exWriter { style := "mssql", offset := 9223372036854775807, limitN := 1, pk := "id" }
    (Or.inl rfl) rfl (by decide) (by decide) (by decide) (by decide) (by decide)
  refine ⟨⟨_, _, hact, rfl, rfl, by decide⟩, ?_, ?_⟩
  · rintro ⟨final, hR, htab, _⟩
    have hf := Renders_unique _ _ _ _ _ _ hR hact
    subst hf
    have ht : ("" : String) = "t" := htab
    exact absurd ht (by decide)
  · rintro ⟨final, inner, hR, hc, hs⟩
    have hf := Renders_unique _ _ _ _ _ _ hR hact
    subst hf
    have hc2 : Cond.and (exPaged "mssql" 9223372036854775807 1 "id").cond
        (Cond.notIn "id" (SetNestedFlag true (From ""
          (some (cleared (exPaged "mssql" 9223372036854775807 1 "id")))
          (Select ["TOP " ++ formatInt (wrapInt (1 + 9223372036854775807)) ++ " " ++
            Join ((exPaged "mssql" 9223372036854775807 1 "id").selects ++ ["id"]) ","]))))
        = Cond.and (exPaged "mssql" 9223372036854775807 1 "id").cond
          (Cond.notIn "id" inner) := hc
    injection hc2 with _ hn
    injection hn with _ hi
    subst hi
    have hs2 : ["TOP " ++ formatInt (wrapInt (1 + 9223372036854775807)) ++ " " ++
        Join ((exPaged "mssql" 9223372036854775807 1 "id").selects ++ ["id"]) ","]
        = ["TOP " ++ formatInt (9223372036854775807 + 1) ++ " " ++ Join ["a", "id"] ","] := hs
    exact absurd hs2 (by decide)

/-- C6, amended: TOP style, offset O above 0, count N above 0, a non-empty
select list S and a primary key pk that is not blank.  The inner query (a) has
as its select list the single item `TOP k ` followed by S and pk joined by
commas, where k is O + N reduced to the 64-bit `int` (O + N itself when that
is below 2^63), and is taken over the original query with its pagination
erased; the rendered outer query (b) has the select list `TOP N ` followed by
S joined by commas and the filter "original filter AND pk NOT IN (a)".  The
source of (b) is left open. -/
theorem C6_top_two_level_query (lower : Char → Char) (spare : Bool) (b : Builder) (w : BytesWriter)
    (limit : Limit)
    (hop : b.optype = selectType ∨ b.optype = unionType)
    (hlim : b.limitation = some limit)
    (hN : 0 < limit.limitN) (hO : 0 < limit.offset)
    (hkey : ToLower lower (TrimSpace limit.style) = MSSQL)
    (hpk : TrimSpace limit.pk ≠ "")
    (hsel : b.selects ≠ []) :
    ∃ final inner : Builder, Renders lower spare b w final ∧
      inner.selects = ["TOP " ++ formatInt (wrapInt (limit.limitN + limit.offset)) ++ " " ++
        Join (b.selects ++ [limit.pk]) ","] ∧
      inner.subQuery = some (cleared b) ∧ inner.tableName = "" ∧
      final.selects = ["TOP " ++ formatInt limit.limitN ++ " " ++ Join b.selects ","] ∧
      final.cond = Cond.and b.cond (Cond.notIn limit.pk inner) ∧
      (limit.offset + limit.limitN < 2 ^ 63 →
        wrapInt (limit.limitN + limit.offset) = limit.offset + limit.limitN) := by
  refine ⟨_, _, top_later_page lower spare b w limit hop hlim hN hO hkey hpk hsel,
    rfl, rfl, rfl, rfl, rfl, ?_⟩
  intro hlt
  unfold wrapInt
  omega

/-- Witness of C6 (amended): offset 10, count 5 and primary key `id` on the
example query. -/
theorem C6_top_two_level_query_witness :
    ∃ final inner : Builder, Renders asciiLower false (exPaged "mssql" 10 5 "id") exWriter final ∧
      inner.selects = ["TOP " ++ formatInt (wrapInt (5 + 10)) ++ " " ++
        Join (["a"] ++ ["id"]) ","] ∧
      inner.subQuery = some (cleared (exPaged "mssql" 10 5 "id")) ∧ inner.tableName = "" ∧
      final.selects = ["TOP " ++ formatInt 5 ++ " " ++ Join ["a"] ","] ∧
      final.cond = Cond.and (Cond.expr "x=?" [Value.int 1]) (Cond.notIn "id" inner) ∧
      ((10 : Int) + 5 < 2 ^ 63 → wrapInt (5 + 10) = 10 + 5) :=
  C6_top_two_level_query asciiLower false (exPaged "mssql" 10 5 "id") exWriter
    { style := "mssql", offset := 10, limitN := 5, pk := "id" }
    (Or.inl rfl) rfl (by decide) (by decide) (by decide) (by decide) (by decide)

/-- C7: TOP style, offset 0 and count N above 0.  The rendered wrapper has as
its select list the single item `TOP N ` followed by the original select items
joined by `,` (`*` when there are none), the original Builder (pagination
erased) as nested source under no alias, an empty filter and the nested flag
set.  Rendered by the SELECT writer on the flushed writer, with a nested
render that appends text T and arguments A, it gives `SELECT TOP N items FROM
(T)` with exactly the arguments A: `TOP N` follows `SELECT`, and the wrapper
adds neither an OFFSET keyword nor an argument. -/
theorem C7_top_first_page_wrapper (lower : Char → Char) (spare : Bool) (b : Builder) (w : BytesWriter)
    (limit : Limit)
    (hop : b.optype = selectType ∨ b.optype = unionType)
    (hlim : b.limitation = some limit)
    (hN : 0 < limit.limitN) (hO : limit.offset = 0)
    (hkey : ToLower lower (TrimSpace limit.style) = MSSQL) :
    ∃ final : Builder, Renders lower spare b w final ∧
      final.selects = ["TOP " ++ formatInt limit.limitN ++ " " ++
        Join (if b.selects = [] then ["*"] else b.selects) ","] ∧
      final.subQuery = some (cleared b) ∧ final.tableName = "" ∧
      final.cond = Cond.empty ∧ final.isNested = true ∧
      ∀ (sub : Renderer) (T : String) (A : List Value),
        (∀ w1, sub (cleared b) w1 = (none, (w1.Write T).Append A)) →
        selectWriteTo sub final BytesWriter.reset =
          (none, BytesWriter.mk ("SELECT " ++ ("TOP " ++ formatInt limit.limitN ++ " " ++
              Join (if b.selects = [] then ["*"] else b.selects) ",") ++ " FROM (" ++ T ++ ")")
            A) := by
  have hsel : (if b.selects.length = 0 then b.selects ++ ["*"] else b.selects) =
      (if b.selects = [] then ["*"] else b.selects) := by
    by_cases h : b.selects = []
    · simp [h]
    · have h2 : ¬ b.selects.length = 0 := fun hl => h (List.length_eq_zero.mp hl)
      simp [h, h2]
  have hR := top_first_page lower spare b w limit hop hlim hN hO hkey
  rw [hsel] at hR
  refine ⟨_, hR, rfl, rfl, rfl, rfl, rfl, ?_⟩
  intro sub T A hsub
  rw [selectWriteTo_wrapper sub _ (cleared b) BytesWriter.reset T A rfl hop rfl rfl rfl rfl
    (by simp [SetNestedFlag, From, Select, NewCond, Cond.IsValid]) hsub]
  simp [SetNestedFlag, From, Select, NewCond, Cond.IsValid, Join_single,
    BytesWriter.Write, BytesWriter.Append, BytesWriter.reset, String.append_assoc]

/-- Witness of C7: count 5 on the query with the empty select list. -/
theorem C7_top_first_page_wrapper_witness :
    ∃ final : Builder, Renders asciiLower false (exStar "MSSQL" 0 5 "") exWriter final ∧
      final.selects = ["TOP " ++ formatInt 5 ++ " " ++
        Join (if ([] : List String) = [] then ["*"] else []) ","] ∧
      final.subQuery = some (cleared (exStar "MSSQL" 0 5 "")) ∧ final.tableName = "" ∧
      final.cond = Cond.empty ∧ final.isNested = true ∧
      ∀ (sub : Renderer) (T : String) (A : List Value),
        (∀ w1, sub (cleared (exStar "MSSQL" 0 5 "")) w1 = (none, (w1.Write T).Append A)) →
        selectWriteTo sub final BytesWriter.reset =
          (none, BytesWriter.mk ("SELECT " ++ ("TOP " ++ formatInt 5 ++ " " ++
              Join (if ([] : List String) = [] then ["*"] else []) ",") ++ " FROM (" ++ T ++ ")")
            A) :=
  C7_top_first_page_wrapper asciiLower false (exStar "MSSQL" 0 5 "") exWriter
    { style := "MSSQL", offset := 0, limitN := 5, pk := "" }
    (Or.inl rfl) rfl (by decide) rfl (by decide)

/-- C8: TOP style, offset above 0, count above 0 and a primary key that is
empty or made of white space only: `limitWriteTo` returns the primary-key
error whatever the select list and the render call are, and leaves the
flushed writer empty (no wrapper is rendered). -/
theorem C8_top_missing_primary_key (lower : Char → Char) (spare : Bool) (WriteTo : Renderer)
    (b : Builder) (w : BytesWriter) (limit : Limit)
    (hop : b.optype = selectType ∨ b.optype = unionType)
    (hlim : b.limitation = some limit)
    (hN : 0 < limit.limitN) (hO : 0 < limit.offset)
    (hkey : ToLower lower (TrimSpace limit.style) = MSSQL)
    (hpk : ∀ c ∈ limit.pk.data, isSpace c = true) :
    limitWriteTo lower spare WriteTo b w =
      (some (Error.New "Please assign a PK for MsSQL LIMIT operation"),
        cleared b, BytesWriter.reset) := by
  have g1 : ¬ ¬ (b.optype = selectType ∨ b.optype = unionType) := not_not.mpr hop
  have g2 : ¬ (limit.offset < 0 ∨ limit.limitN ≤ 0) := by omega
  have g3 : ¬ limit.offset = 0 := by omega
  have k1 : ¬ ToLower lower (TrimSpace limit.style) = ORACLE := by rw [hkey]; decide
  have k2 : ¬ (ToLower lower (TrimSpace limit.style) = SQLITE ∨
      ToLower lower (TrimSpace limit.style) = MYSQL ∨
      ToLower lower (TrimSpace limit.style) = POSTGRES) := by rw [hkey]; decide
  have hb : TrimSpace limit.pk = "" := TrimSpace_blank limit.pk hpk
  unfold limitWriteTo
  rw [if_neg g1]
  simp only [hlim]
  rw [if_neg g2]
  simp only [if_neg k1, if_neg k2, if_pos hkey, if_neg g3, if_pos hb]
  rfl

/-- Witness of C8: a white-space primary key and an empty select list. -/
theorem C8_top_missing_primary_key_witness :
    limitWriteTo asciiLower false (selectWriteTo noSub) (exStar "mssql" 10 5 " \t") exWriter =
      (some (Error.New "Please assign a PK for MsSQL LIMIT operation"),
        cleared (exStar "mssql" 10 5 " \t"), BytesWriter.reset) :=
  C8_top_missing_primary_key asciiLower false (selectWriteTo noSub) (exStar "mssql" 10 5 " \t")
    exWriter { style := "mssql", offset := 10, limitN := 5, pk := " \t" }
    (Or.inl rfl) rfl (by decide) (by decide) (by decide) (by decide)

/-- C9: with an empty select list, offset above 0 and count above 0,
`limitWriteTo` returns `ErrNotSupportType` on the ROWNUM style, and on the TOP
style when the primary key is not blank; in both cases whatever the render
call is, and the flushed writer stays empty.  The receiver is returned with
its pagination erased (and, on the ROWNUM style, with the item that lines 34
and 39 left in its select list). -/
theorem C9_empty_select_list_unsupported (lower : Char → Char) (spare : Bool)
    (WriteTo : Renderer) (b : Builder) (w : BytesWriter) (limit : Limit)
    (hop : b.optype = selectType ∨ b.optype = unionType)
    (hlim : b.limitation = some limit)
    (hN : 0 < limit.limitN) (hO : 0 < limit.offset)
    (hsel : b.selects = []) :
    (ToLower lower (TrimSpace limit.style) = ORACLE →
      limitWriteTo lower spare WriteTo b w =
        (some Error.ErrNotSupportType,
          (if spare = true then overwritten b else withRownum b), BytesWriter.reset)) ∧
    (ToLower lower (TrimSpace limit.style) = MSSQL → TrimSpace limit.pk ≠ "" →
      limitWriteTo lower spare WriteTo b w =
        (some Error.ErrNotSupportType, cleared b, BytesWriter.reset)) := by
  have g3 : ¬ limit.offset = 0 := by omega
  have g4 : b.selects.length = 0 := by rw [hsel]; rfl
  rw [limitWriteTo_routes lower spare WriteTo b w limit hop hlim hN (by omega)]
  constructor
  · intro hkey
    simp only [if_pos hkey, if_neg g3, if_pos g4]
  · intro hkey hpk
    have k1 : ¬ ToLower lower (TrimSpace limit.style) = ORACLE := by rw [hkey]; decide
    have k2 : ¬ (ToLower lower (TrimSpace limit.style) = SQLITE ∨
        ToLower lower (TrimSpace limit.style) = MYSQL ∨
        ToLower lower (TrimSpace limit.style) = POSTGRES) := by rw [hkey]; decide
    simp only [if_neg k1, if_neg k2, if_pos hkey, if_neg g3, if_neg hpk, if_pos g4]

/-- Witness of C9: the ROWNUM style and the TOP style with primary key `id`. -/
theorem C9_empty_select_list_unsupported_witness :
    limitWriteTo asciiLower false (selectWriteTo noSub) (exStar "Oracle" 10 5 "") exWriter =
      (some Error.ErrNotSupportType,
        withRownum (exStar "Oracle" 10 5 ""), BytesWriter.reset) ∧
    limitWriteTo asciiLower false (selectWriteTo noSub) (exStar "mssql" 10 5 "id") exWriter =
      (some Error.ErrNotSupportType, cleared (exStar "mssql" 10 5 "id"), BytesWriter.reset) :=
  ⟨(C9_empty_select_list_unsupported asciiLower false (selectWriteTo noSub)
      (exStar "Oracle" 10 5 "") exWriter
      { style := "Oracle", offset := 10, limitN := 5, pk := "" }
      (Or.inl rfl) rfl (by decide) (by decide) rfl).1 (by decide),
   (C9_empty_select_list_unsupported asciiLower false (selectWriteTo noSub)
      (exStar "mssql" 10 5 "id") exWriter
      { style := "mssql", offset := 10, limitN := 5, pk := "id" }
      (Or.inl rfl) rfl (by decide) (by decide) rfl).2 (by decide) (by decide)⟩

/-- C10: with valid pagination, a style that after trimming and lower-casing
is none of the five dialect names (the empty style included) makes
`limitWriteTo` return `ErrNotSupportType`. -/
theorem C10_unknown_style_unsupported (lower : Char → Char) (spare : Bool) (WriteTo : Renderer)
    (b : Builder) (w : BytesWriter) (limit : Limit)
    (hop : b.optype = selectType ∨ b.optype = unionType)
    (hlim : b.limitation = some limit)
    (hN : 0 < limit.limitN) (hO : 0 ≤ limit.offset)
    (h1 : ToLower lower (TrimSpace limit.style) ≠ ORACLE)
    (h2 : ToLower lower (TrimSpace limit.style) ≠ SQLITE)
    (h3 : ToLower lower (TrimSpace limit.style) ≠ MYSQL)
    (h4 : ToLower lower (TrimSpace limit.style) ≠ POSTGRES)
    (h5 : ToLower lower (TrimSpace limit.style) ≠ MSSQL) :
    (limitWriteTo lower spare WriteTo b w).1 = some Error.ErrNotSupportType := by
  have g1 : ¬ ¬ (b.optype = selectType ∨ b.optype = unionType) := not_not.mpr hop
  have g2 : ¬ (limit.offset < 0 ∨ limit.limitN ≤ 0) := by omega
  unfold limitWriteTo
  rw [if_neg g1]
  simp only [hlim]
  rw [if_neg g2]
  simp [h1, h2, h3, h4, h5]

/-- Witness of C10: the empty style. -/
theorem C10_unknown_style_unsupported_witness :
    (limitWriteTo asciiLower false noSub (exPaged "" 0 5 "") exWriter).1 =
      some Error.ErrNotSupportType :=
  C10_unknown_style_unsupported asciiLower false noSub (exPaged "" 0 5 "") exWriter
    { style := "", offset := 0, limitN := 5, pk := "" }
    (Or.inl rfl) rfl (by decide) (by decide)
    (by decide) (by decide) (by decide) (by decide) (by decide)

/-- C11 as stated fails on a pagination spec that does not pass validation:
with count 0 the Builder is returned as it came, so the run under `ORACLE` and
the run under `oracle` (same normal form) leave Builders that differ in the
style string they still carry. -/
theorem C11_style_retained_counterexample :
    ToLower asciiLower (TrimSpace "ORACLE") = ToLower asciiLower (TrimSpace "oracle") ∧
    (limitWriteTo asciiLower false noSub (exPaged "ORACLE" 0 0 "") exWriter).2.1 ≠
      (limitWriteTo asciiLower false noSub (exPaged "oracle" 0 0 "") exWriter).2.1 := by
  refine ⟨by decide, ?_⟩
  intro h
  have h1 : (exPaged "ORACLE" 0 0 "").limitation = (exPaged "oracle" 0 0 "").limitation :=
    congrArg Builder.limitation h
  exact absurd h1 (by decide)

/-- C11, amended: two styles with the same trimmed, lower-cased form give the
same error and the same writer for every Builder, writer and pagination spec,
and the same resulting Builder whenever the run passes validation (SELECT or
UNION kind, count above 0, offset not negative); when it does not, each run
leaves the Builder it was given, style string included. -/
theorem C11_style_normal_form (lower : Char → Char) (spare : Bool) (WriteTo : Renderer) (b : Builder)
    (w : BytesWriter) (limit : Limit) (s1 s2 : String)
    (hkey : ToLower lower (TrimSpace s1) = ToLower lower (TrimSpace s2)) :
    (limitWriteTo lower spare WriteTo (withStyle b limit s1) w).1 =
      (limitWriteTo lower spare WriteTo (withStyle b limit s2) w).1 ∧
    (limitWriteTo lower spare WriteTo (withStyle b limit s1) w).2.2 =
      (limitWriteTo lower spare WriteTo (withStyle b limit s2) w).2.2 ∧
    ((b.optype = selectType ∨ b.optype = unionType) ∧ 0 < limit.limitN ∧ 0 ≤ limit.offset →
      (limitWriteTo lower spare WriteTo (withStyle b limit s1) w).2.1 =
        (limitWriteTo lower spare WriteTo (withStyle b limit s2) w).2.1) ∧
    (¬ ((b.optype = selectType ∨ b.optype = unionType) ∧ 0 < limit.limitN ∧ 0 ≤ limit.offset) →
      (limitWriteTo lower spare WriteTo (withStyle b limit s1) w).2.1 = withStyle b limit s1 ∧
      (limitWriteTo lower spare WriteTo (withStyle b limit s2) w).2.1 = withStyle b limit s2) := by
  by_cases hop : b.optype = selectType ∨ b.optype = unionType
  · by_cases hv : limit.offset < 0 ∨ limit.limitN ≤ 0
    · have e1 : ∀ s, limitWriteTo lower spare WriteTo (withStyle b limit s) w =
          (some (Error.New "Unexpected offset/limitN, set a negative one?"),
            withStyle b limit s, w) := by
        intro s
        have g1 : ¬ ¬ ((withStyle b limit s).optype = selectType ∨
            (withStyle b limit s).optype = unionType) := not_not.mpr hop
        unfold limitWriteTo
        rw [if_neg g1]
        simp only [withStyle]
        rw [if_pos hv]
      rw [e1 s1, e1 s2]
      refine ⟨rfl, rfl, ?_, fun _ => ⟨rfl, rfl⟩⟩
      intro hvalid
      omega
    · have e2 : limitWriteTo lower spare WriteTo (withStyle b limit s1) w =
          limitWriteTo lower spare WriteTo (withStyle b limit s2) w := by
        have g1 : ∀ s, ¬ ¬ ((withStyle b limit s).optype = selectType ∨
            (withStyle b limit s).optype = unionType) := fun _ => not_not.mpr hop
        unfold limitWriteTo
        rw [if_neg (g1 s1), if_neg (g1 s2)]
        simp only [withStyle]
        rw [if_neg hv, if_neg hv]
        simp only [hkey]
      rw [e2]
      refine ⟨rfl, rfl, fun _ => rfl, ?_⟩
      intro hnot
      exact absurd ⟨hop, by omega, by omega⟩ hnot
  · have e3 : ∀ s, limitWriteTo lower spare WriteTo (withStyle b limit s) w =
        (some (Error.New "LIMIT is limited in SELECT and UNION"), withStyle b limit s, w) := by
      intro s
      have g1 : ¬ ((withStyle b limit s).optype = selectType ∨
          (withStyle b limit s).optype = unionType) := hop
      unfold limitWriteTo
      rw [if_pos g1]
    rw [e3 s1, e3 s2]
    exact ⟨rfl, rfl, fun h => absurd h.1 hop, fun _ => ⟨rfl, rfl⟩⟩

/-- Witness of C11 (amended): the styles ` ORACLE ` and `oracle` on the example
query with count 5. -/
theorem C11_style_normal_form_witness :
    (limitWriteTo asciiLower false (selectWriteTo (selectWriteTo noSub))
        (withStyle exQuery { style := "", offset := 0, limitN := 5, pk := "" } " ORACLE ")
        exWriter).1 =
      (limitWriteTo asciiLower false (selectWriteTo (selectWriteTo noSub))
        (withStyle exQuery { style := "", offset := 0, limitN := 5, pk := "" } "oracle")
        exWriter).1 :=
  (C11_style_normal_form asciiLower false (selectWriteTo (selectWriteTo noSub)) exQuery exWriter
    { style := "", offset := 0, limitN := 5, pk := "" } " ORACLE " "oracle" (by decide)).1

/-- C12: a Builder whose kind is neither SELECT nor UNION makes `limitWriteTo`
return an error for every pagination spec (absent or present) and style, and
the writer and the Builder are returned as they were. -/
theorem C12_kind_rejected (lower : Char → Char) (spare : Bool) (WriteTo : Renderer) (b : Builder)
    (w : BytesWriter)
    (hop : ¬ (b.optype = selectType ∨ b.optype = unionType)) :
    limitWriteTo lower spare WriteTo b w =
      (some (Error.New "LIMIT is limited in SELECT and UNION"), b, w) := by
  unfold limitWriteTo
  rw [if_pos hop]

/-- Witness of C12: a DELETE Builder with a valid pagination spec. -/
theorem C12_kind_rejected_witness :
    limitWriteTo asciiLower false noSub { exPaged "mysql" 0 5 "" with optype := deleteType } exWriter =
      (some (Error.New "LIMIT is limited in SELECT and UNION"),
        { exPaged "mysql" 0 5 "" with optype := deleteType }, exWriter) :=
  C12_kind_rejected asciiLower false noSub { exPaged "mysql" 0 5 "" with optype := deleteType }
    exWriter (by decide)

/-- C13: the native route evaluated on `Select("a")` without a table, style
`mysql`, offset 0 and count 5.  Rendering the Builder itself fails with
`ErrNoTableName`, yet `limitWriteTo` returns no error, whatever the render
call returns, and leaves the writer with the text ` LIMIT 5`: the error of
`b.WriteTo(ow)` is dropped. -/
theorem C13_native_render_error_dropped :
    (selectWriteTo noSub (cleared exNoTable) BytesWriter.reset).1 = some Error.ErrNoTableName ∧
    (limitWriteTo asciiLower false (selectWriteTo noSub) exNoTable exWriter).1 = none ∧
    (limitWriteTo asciiLower false (selectWriteTo noSub) exNoTable exWriter).2.2 =
      BytesWriter.mk " LIMIT 5" [] ∧
    ∀ WriteTo : Renderer, (limitWriteTo asciiLower false WriteTo exNoTable exWriter).1 = none := by
  refine ⟨by decide, by decide, by decide, ?_⟩
  intro WriteTo
  rw [limitWriteTo_routes asciiLower false WriteTo exNoTable exWriter
    { style := "mysql", offset := 0, limitN := 5, pk := "" }
    (Or.inl rfl) rfl (by decide) (by decide)]
  have k1 : ¬ ToLower asciiLower (TrimSpace "mysql") = ORACLE := by decide
  have k2 : ToLower asciiLower (TrimSpace "mysql") = SQLITE ∨
      ToLower asciiLower (TrimSpace "mysql") = MYSQL ∨
      ToLower asciiLower (TrimSpace "mysql") = POSTGRES := by decide
  simp only [if_neg k1, if_pos k2, if_true]

/-- C14: the rewrite is one-shot.  With valid pagination on a SELECT or UNION
Builder `b` and any style: every Builder the call may render (the receiver
with its pagination erased, or a wrapper whose source chain ends in it) is
without pagination spec; the call invokes a render on such Builders only, so
its result does not depend on what the render call does elsewhere; and the
receiver is returned with its pagination erased. -/
theorem C14_one_shot_rewrite (lower : Char → Char) (spare : Bool) (b : Builder) (w : BytesWriter)
    (limit : Limit)
    (hop : b.optype = selectType ∨ b.optype = unionType)
    (hlim : b.limitation = some limit)
    (hN : 0 < limit.limitN) (hO : 0 ≤ limit.offset) :
    (∀ q, Rewritten b q → q.limitation = none) ∧
    (∀ W1 W2 : Renderer, (∀ q w1, Rewritten b q → W1 q w1 = W2 q w1) →
      limitWriteTo lower spare W1 b w = limitWriteTo lower spare W2 b w) ∧
    (∀ WriteTo : Renderer, (limitWriteTo lower spare WriteTo b w).2.1.limitation = none) := by
  refine ⟨Rewritten_limitation b, ?_, ?_⟩
  · intro W1 W2 hW
    exact limitWriteTo_footprint lower spare W1 W2 b w limit hop hlim hN hO hW
  · intro WriteTo
    rw [limitWriteTo_receiver lower spare WriteTo b w limit hop hlim hN hO]
    split_ifs <;> rfl

/-- Witness of C14: the ROWNUM rewrite of the example query, offset 10 and
count 5. -/
theorem C14_one_shot_rewrite_witness :
    (∀ q, Rewritten (exPaged "oracle" 10 5 "") q → q.limitation = none) ∧
    (∀ W1 W2 : Renderer,
      (∀ q w1, Rewritten (exPaged "oracle" 10 5 "") q → W1 q w1 = W2 q w1) →
      limitWriteTo asciiLower false W1 (exPaged "oracle" 10 5 "") exWriter =
        limitWriteTo asciiLower false W2 (exPaged "oracle" 10 5 "") exWriter) ∧
    (∀ WriteTo : Renderer,
      (limitWriteTo asciiLower false WriteTo (exPaged "oracle" 10 5 "") exWriter).2.1.limitation =
        none) :=
  C14_one_shot_rewrite asciiLower false (exPaged "oracle" 10 5 "") exWriter
    { style := "oracle", offset := 10, limitN := 5, pk := "" }
    (Or.inl rfl) rfl (by decide) (by decide)

/-- C15 as stated fails on the ROWNUM route.  After the call on the example
query with style `oracle`, offset 0 and count 5 the select list of the Builder
is `a`, `ROWNUM RN`, not the `a` it was before; and with offset 10 and a select
list that has spare capacity it is `a`, `RN`. -/
theorem C15_select_list_extended_counterexample :
    (limitWriteTo asciiLower false noSub (exPaged "oracle" 0 5 "") exWriter).2.1.selects =
      ["a", "ROWNUM RN"] ∧
    (limitWriteTo asciiLower false noSub (exPaged "oracle" 0 5 "") exWriter).2.1.selects ≠
      (exPaged "oracle" 0 5 "").selects ∧
    (limitWriteTo asciiLower true noSub (exPaged "oracle" 10 5 "") exWriter).2.1.selects =
      ["a", "RN"] := by
  refine ⟨by decide, by decide, by decide⟩

/-- C15, amended: with valid pagination on a SELECT or UNION Builder `b`, the
call leaves the kind, source (table or nested Builder and alias), UNION
branches, filter, grouping, having, ordering, dialect and nested flag of `b`
as they were; the select list too on every style that is not the ROWNUM
style.  On the ROWNUM style the select list is left one item longer, and the
appended item is the synthetic column `ROWNUM RN` when offset is 0 or the
select list had no spare capacity. -/
theorem C15_fields_preserved (lower : Char → Char) (spare : Bool) (WriteTo : Renderer)
    (b : Builder) (w : BytesWriter) (limit : Limit)
    (hop : b.optype = selectType ∨ b.optype = unionType)
    (hlim : b.limitation = some limit)
    (hN : 0 < limit.limitN) (hO : 0 ≤ limit.offset) :
    (limitWriteTo lower spare WriteTo b w).2.1.optype = b.optype ∧
    (limitWriteTo lower spare WriteTo b w).2.1.tableName = b.tableName ∧
    (limitWriteTo lower spare WriteTo b w).2.1.subQuery = b.subQuery ∧
    (limitWriteTo lower spare WriteTo b w).2.1.unions = b.unions ∧
    (limitWriteTo lower spare WriteTo b w).2.1.cond = b.cond ∧
    (limitWriteTo lower spare WriteTo b w).2.1.groupBy = b.groupBy ∧
    (limitWriteTo lower spare WriteTo b w).2.1.having = b.having ∧
    (limitWriteTo lower spare WriteTo b w).2.1.orderBy = b.orderBy ∧
    (limitWriteTo lower spare WriteTo b w).2.1.dialect = b.dialect ∧
    (limitWriteTo lower spare WriteTo b w).2.1.isNested = b.isNested ∧
    (ToLower lower (TrimSpace limit.style) ≠ ORACLE →
      (limitWriteTo lower spare WriteTo b w).2.1.selects = b.selects) ∧
    (ToLower lower (TrimSpace limit.style) = ORACLE →
      (∃ item, (limitWriteTo lower spare WriteTo b w).2.1.selects = b.selects ++ [item]) ∧
      (limit.offset = 0 ∨ spare = false →
        (limitWriteTo lower spare WriteTo b w).2.1.selects = b.selects ++ ["ROWNUM RN"])) := by
  rw [limitWriteTo_receiver lower spare WriteTo b w limit hop hlim hN hO]
  by_cases k : ToLower lower (TrimSpace limit.style) = ORACLE
  · rw [if_pos k]
    by_cases h0 : limit.offset = 0
    · rw [if_pos h0]
      exact ⟨rfl, rfl, rfl, rfl, rfl, rfl, rfl, rfl, rfl, rfl, fun h => absurd k h,
        fun _ => ⟨⟨"ROWNUM RN", rfl⟩, fun _ => rfl⟩⟩
    · rw [if_neg h0]
      cases spare
      · exact ⟨rfl, rfl, rfl, rfl, rfl, rfl, rfl, rfl, rfl, rfl, fun h => absurd k h,
          fun _ => ⟨⟨"ROWNUM RN", rfl⟩, fun _ => rfl⟩⟩
      · refine ⟨rfl, rfl, rfl, rfl, rfl, rfl, rfl, rfl, rfl, rfl, fun h => absurd k h,
          fun _ => ⟨⟨"RN", rfl⟩, ?_⟩⟩
        intro h
        rcases h with h | h
        · exact absurd h h0
        · exact absurd h (by decide)
  · rw [if_neg k]
    exact ⟨rfl, rfl, rfl, rfl, rfl, rfl, rfl, rfl, rfl, rfl, fun _ => rfl, fun h => absurd h k⟩

/-- Witness of C15 (amended): the TOP route on the example query. -/
theorem C15_fields_preserved_witness :
    (limitWriteTo asciiLower false noSub (exPaged "mssql" 0 5 "") exWriter).2.1.selects =
      (exPaged "mssql" 0 5 "").selects :=
  (C15_fields_preserved asciiLower false noSub (exPaged "mssql" 0 5 "") exWriter
    { style := "mssql", offset := 0, limitN := 5, pk := "" }
    (Or.inl rfl) rfl (by decide) (by decide)).2.2.2.2.2.2.2.2.2.2.1 (by decide)

/-- C16: with valid pagination on a SELECT or UNION Builder and any style, two
runs that differ only in what the writer held before the call give the same
error, the same Builder and the same writer. -/
theorem C16_prior_output_discarded (lower : Char → Char) (spare : Bool) (WriteTo : Renderer) (b : Builder)
    (w1 w2 : BytesWriter) (limit : Limit)
    (hop : b.optype = selectType ∨ b.optype = unionType)
    (hlim : b.limitation = some limit)
    (hN : 0 < limit.limitN) (hO : 0 ≤ limit.offset) :
    limitWriteTo lower spare WriteTo b w1 = limitWriteTo lower spare WriteTo b w2 :=
  limitWriteTo_flushes lower spare WriteTo b w1 w2 limit hop hlim hN hO

/-- Witness of C16: the example writer and the empty writer on the native
route. -/
theorem C16_prior_output_discarded_witness :
    limitWriteTo asciiLower false (selectWriteTo noSub) (exPaged "mysql" 10 5 "") exWriter =
      limitWriteTo asciiLower false (selectWriteTo noSub) (exPaged "mysql" 10 5 "")
        BytesWriter.reset :=
  C16_prior_output_discarded asciiLower false (selectWriteTo noSub) (exPaged "mysql" 10 5 "")
    exWriter BytesWriter.reset { style := "mysql", offset := 10, limitN := 5, pk := "" }
    (Or.inl rfl) rfl (by decide) (by decide)

/-- C17 as stated fails in its second half.  A SELECT Builder over a nested
SELECT without alias and with an empty filter does not render when the two
dialects are set and differ (`mysql` over `oracle` gives
`ErrInconsistentDialect`), and when it carries an ordering clause its text
continues after the closing parenthesis. -/
theorem C17_unaliased_source_counterexample :
    (selectWriteTo (selectWriteTo noSub)
      (exOuter "mysql" (exInner "oracle") "" Cond.empty "") BytesWriter.reset).1 =
      some Error.ErrInconsistentDialect ∧
    selectWriteTo noSub (exInner "") BytesWriter.reset =
      (none, BytesWriter.mk "SELECT id FROM table1 WHERE a=?" [Value.int 1]) ∧
    selectWriteTo (selectWriteTo noSub)
      (exOuter "" (exInner "") "" Cond.empty "sub.id DESC") BytesWriter.reset =
      (none, BytesWriter.mk
        "SELECT sub.id FROM (SELECT id FROM table1 WHERE a=?) ORDER BY sub.id DESC"
        [Value.int 1]) ∧
    (selectWriteTo (selectWriteTo noSub)
      (exOuter "" (exInner "") "" Cond.empty "sub.id DESC") BytesWriter.reset).2.writer ≠
      "SELECT sub.id FROM (" ++
        (selectWriteTo noSub (exInner "") BytesWriter.reset).2.writer ++ ")" := by
  refine ⟨by decide, by decide, by decide, by decide⟩

/-- C17, amended: a SELECT Builder without pagination spec whose source is a
nested SELECT or UNION Builder without alias.  With a non-empty filter the
SELECT writer fails with `ErrUnnamedDerivedTable`.  With an empty filter, no
grouping, having or ordering clause, dialects that are not both set and
different, and a nested render that succeeds with text T and arguments A, it
succeeds with the text `SELECT cols FROM (T)`, nothing after the closing
parenthesis, and exactly the arguments A. -/
theorem C17_unaliased_nested_source (sub : Renderer) (b q : Builder) (w : BytesWriter)
    (T : String) (A : List Value)
    (_hkind : b.optype = selectType) (_hpag : b.limitation = none)
    (hq : b.subQuery = some q)
    (hqk : q.optype = selectType ∨ q.optype = unionType)
    (halias : b.tableName = "") :
    (b.cond.IsValid = true →
      (selectWriteTo sub b w).1 = some Error.ErrUnnamedDerivedTable) ∧
    (b.cond.IsValid = false →
      ¬ (q.dialect ≠ "" ∧ b.dialect ≠ "" ∧ b.dialect ≠ q.dialect) →
      b.groupBy = "" → b.having = "" → b.orderBy = "" →
      (∀ w1, sub q w1 = (none, (w1.Write T).Append A)) →
      selectWriteTo sub b BytesWriter.reset =
        (none, BytesWriter.mk ("SELECT " ++
          (if b.selects.length = 0 then "*" else Join b.selects ",") ++ " FROM (" ++ T ++ ")")
          A)) := by
  constructor
  · intro hc
    exact selectWriteTo_unnamed sub b q w hq halias hc
  · intro hc hd hg hh ho hsub
    have hu : ¬ (b.cond.IsValid = true ∧ b.tableName = "") := by
      rw [hc]; simp
    rw [selectWriteTo_nested sub b q BytesWriter.reset T A hq hqk hd hg hh ho hu hsub]
    simp [hc, halias, BytesWriter.Write, BytesWriter.Append, BytesWriter.reset,
      String.append_assoc]

/-- Witness of C17 (amended): the two unaliased queries of `TestBuilder_From`,
with the filter `b = 1` and without filter. -/
theorem C17_unaliased_nested_source_witness :
    (selectWriteTo (selectWriteTo noSub)
      (exOuter "" (exInner "") "" (Cond.expr "b=?" [Value.int 1]) "") BytesWriter.reset).1 =
      some Error.ErrUnnamedDerivedTable ∧
    selectWriteTo (selectWriteTo noSub)
      (exOuter "" (exInner "") "" Cond.empty "") BytesWriter.reset =
      (none, BytesWriter.mk ("SELECT " ++
        (if ["sub.id"].length = 0 then "*" else Join ["sub.id"] ",") ++ " FROM (" ++
        "SELECT id FROM table1 WHERE a=?" ++ ")") [Value.int 1]) :=
  ⟨(C17_unaliased_nested_source (selectWriteTo noSub)
      (exOuter "" (exInner "") "" (Cond.expr "b=?" [Value.int 1]) "") (exInner "")
      BytesWriter.reset "" [] rfl rfl rfl (Or.inl rfl) rfl).1 (by decide),
   (C17_unaliased_nested_source (selectWriteTo noSub)
      (exOuter "" (exInner "") "" Cond.empty "") (exInner "")
      BytesWriter.reset "SELECT id FROM table1 WHERE a=?" [Value.int 1]
      rfl rfl rfl (Or.inl rfl) rfl).2 (by decide) (by decide) rfl rfl rfl
      (fun w1 => by
        simp [selectWriteTo, noSub, exInner, Where, From, Select, NewCond,
          Cond.And, Cond.IsValid, Cond.WriteTo, BytesWriter.Write, BytesWriter.Append, Join,
          String.intercalate, String.intercalate.go, String.append_assoc])⟩

/-- C18 as stated fails: the aliased query of `TestBuilder_From` with the outer
dialect `mysql` and the nested dialect `oracle` has a nested SELECT source, the
alias `sub` and the filter `b = 1`, and rendering it gives
`ErrInconsistentDialect` and none of the text after the select list; with an
ordering clause the text continues after the filter. -/
theorem C18_aliased_source_counterexample :
    selectWriteTo (selectWriteTo noSub)
      (exOuter "mysql" (exInner "oracle") "sub" (Cond.expr "b=?" [Value.int 1]) "")
      BytesWriter.reset =
      (some Error.ErrInconsistentDialect, BytesWriter.mk "SELECT sub.id" []) ∧
    selectWriteTo (selectWriteTo noSub)
      (exOuter "" (exInner "") "sub" (Cond.expr "b=?" [Value.int 1]) "sub.id DESC")
      BytesWriter.reset =
      (none, BytesWriter.mk
        "SELECT sub.id FROM (SELECT id FROM table1 WHERE a=?) sub WHERE b=? ORDER BY sub.id DESC"
        [Value.int 1, Value.int 1]) := by
  refine ⟨by decide, by decide⟩

/-- C18, amended: a SELECT Builder without pagination spec whose source is a
nested SELECT or UNION Builder under the alias a and whose filter c is not
empty, with no grouping, having or ordering clause and dialects that are not
both set and different.  When the nested render succeeds with text T and
arguments A, and the filter renders with text Tc and arguments Ac, the SELECT
writer succeeds with the text `SELECT cols FROM (T) a WHERE Tc` and the
arguments A followed by Ac.  For a UNION source with two branches, rendered by
`Builder.WriteTo`, whose renders succeed with T1, A1 and T2, A2, the text is
`SELECT cols FROM ((T1) UNION KEYWORD (T2)) a WHERE Tc` and the arguments are
A1, then A2, then Ac. -/
theorem C18_aliased_nested_source (b q : Builder) (Tc : String) (Ac : List Value)
    (_hkind : b.optype = selectType) (_hpag : b.limitation = none)
    (hq : b.subQuery = some q)
    (hqk : q.optype = selectType ∨ q.optype = unionType)
    (halias : b.tableName ≠ "")
    (hc : b.cond.IsValid = true)
    (hd : ¬ (q.dialect ≠ "" ∧ b.dialect ≠ "" ∧ b.dialect ≠ q.dialect))
    (hg : b.groupBy = "") (hh : b.having = "") (ho : b.orderBy = "") :
    (∀ (R : Renderer) (T : String) (A : List Value),
      (∀ w1, R q w1 = (none, (w1.Write T).Append A)) →
      (∀ w1, Cond.WriteTo R b.cond w1 = (none, (w1.Write Tc).Append Ac)) →
      selectWriteTo R b BytesWriter.reset =
        (none, BytesWriter.mk ("SELECT " ++
          (if b.selects.length = 0 then "*" else Join b.selects ",") ++ " FROM (" ++ T ++ ") " ++
          b.tableName ++ " WHERE " ++ Tc) (A ++ Ac))) ∧
    (∀ (upper : Char → Char) (other sub : Renderer) (k1 k2 : String) (q1 q2 : Builder)
        (T1 T2 : String) (A1 A2 : List Value),
      q.optype = unionType → q.unions = [(k1, q1), (k2, q2)] →
      (∀ w1, sub q1 w1 = (none, (w1.Write T1).Append A1)) →
      (∀ w1, sub q2 w1 = (none, (w1.Write T2).Append A2)) →
      (∀ w1, Cond.WriteTo (Builder.WriteTo upper other sub) b.cond w1 =
        (none, (w1.Write Tc).Append Ac)) →
      selectWriteTo (Builder.WriteTo upper other sub) b BytesWriter.reset =
        (none, BytesWriter.mk ("SELECT " ++
          (if b.selects.length = 0 then "*" else Join b.selects ",") ++ " FROM (" ++
          ("(" ++ T1 ++ ") UNION " ++ ToUpper upper k2 ++ " (" ++ T2 ++ ")") ++ ") " ++
          b.tableName ++ " WHERE " ++ Tc) (A1 ++ A2 ++ Ac))) := by
  have hu : ¬ (b.cond.IsValid = true ∧ b.tableName = "") := fun h => halias h.2
  have gen : ∀ (R : Renderer) (T : String) (A : List Value),
      (∀ w1, R q w1 = (none, (w1.Write T).Append A)) →
      (∀ w1, Cond.WriteTo R b.cond w1 = (none, (w1.Write Tc).Append Ac)) →
      selectWriteTo R b BytesWriter.reset =
        (none, BytesWriter.mk ("SELECT " ++
          (if b.selects.length = 0 then "*" else Join b.selects ",") ++ " FROM (" ++ T ++ ") " ++
          b.tableName ++ " WHERE " ++ Tc) (A ++ Ac)) := by
    intro R T A hsub hcond
    rw [selectWriteTo_nested R b q BytesWriter.reset T A hq hqk hd hg hh ho hu hsub]
    simp [hc, halias, hcond, BytesWriter.Write, BytesWriter.Append, BytesWriter.reset,
      String.append_assoc]
  refine ⟨gen, ?_⟩
  intro upper other sub k1 k2 q1 q2 T1 T2 A1 A2 hkind hbr h1 h2 hcond
  have hun : ∀ w1, Builder.WriteTo upper other sub q w1 =
      (none, (w1.Write ("(" ++ T1 ++ ") UNION " ++ ToUpper upper k2 ++ " (" ++ T2 ++ ")")).Append
        (A1 ++ A2)) := by
    intro w1
    have hj : ∀ x : String, ")" ++ (" UNION " ++ x) = ") UNION " ++ x := by
      intro x
      rw [← String.append_assoc]
      rfl
    unfold Builder.WriteTo
    simp only [hkind]
    unfold unionWriteTo
    rw [hbr]
    simp [unionBranches, h1, h2, hj, BytesWriter.Write, BytesWriter.Append,
      String.append_assoc]
  exact gen (Builder.WriteTo upper other sub) _ _ hun hcond

/-- Witness of C18 (amended): the two aliased queries of `TestBuilder_From`,
over a nested SELECT with the arguments 1, 1, and over the UNION ALL of two
branches with the arguments 1, 2, 1. -/
theorem C18_aliased_nested_source_witness :
    selectWriteTo (selectWriteTo noSub)
      (exOuter "" (exInner "") "sub" (Cond.expr "b=?" [Value.int 1]) "") BytesWriter.reset =
      (none, BytesWriter.mk
        "SELECT sub.id FROM (SELECT id FROM table1 WHERE a=?) sub WHERE b=?"
        [Value.int 1, Value.int 1]) ∧
    selectWriteTo (Builder.WriteTo asciiUpper noSub (selectWriteTo noSub))
      (exOuter "" exUnion "sub" (Cond.expr "b=?" [Value.int 1]) "") BytesWriter.reset =
      (none, BytesWriter.mk
        ("SELECT sub.id FROM ((SELECT id FROM table1 WHERE a=?) UNION ALL " ++
          "(SELECT id FROM table1 WHERE a=?)) sub WHERE b=?")
        [Value.int 1, Value.int 2, Value.int 1]) :=
  ⟨((C18_aliased_nested_source
      (exOuter "" (exInner "") "sub" (Cond.expr "b=?" [Value.int 1]) "") (exInner "")
      "b=?" [Value.int 1]
      rfl rfl rfl (Or.inl rfl) (by decide) (by decide) (by decide) rfl rfl rfl).1
      (selectWriteTo noSub) "SELECT id FROM table1 WHERE a=?" [Value.int 1]
      (fun w1 => by
        simp [selectWriteTo, noSub, exInner, Where, From, Select, NewCond,
          Cond.And, Cond.IsValid, Cond.WriteTo, BytesWriter.Write, BytesWriter.Append, Join,
          String.intercalate, String.intercalate.go, String.append_assoc])
      (fun w1 => rfl)).trans (by decide),
   ((C18_aliased_nested_source
      (exOuter "" exUnion "sub" (Cond.expr "b=?" [Value.int 1]) "") exUnion
      "b=?" [Value.int 1]
      rfl rfl rfl (Or.inr rfl) (by decide) (by decide) (by decide) rfl rfl rfl).2
      asciiUpper noSub (selectWriteTo noSub) "" "all" (exBranch 1) (exBranch 2)
      "SELECT id FROM table1 WHERE a=?" "SELECT id FROM table1 WHERE a=?"
      [Value.int 1] [Value.int 2] rfl rfl
      (fun w1 => by
        simp [selectWriteTo, noSub, exBranch, Where, From, Select, NewCond,
          Cond.And, Cond.IsValid, Cond.WriteTo, BytesWriter.Write, BytesWriter.Append, Join,
          String.intercalate, String.intercalate.go, String.append_assoc])
      (fun w1 => by
        simp [selectWriteTo, noSub, exBranch, Where, From, Select, NewCond,
          Cond.And, Cond.IsValid, Cond.WriteTo, BytesWriter.Write, BytesWriter.Append, Join,
          String.intercalate, String.intercalate.go, String.append_assoc])
      (fun w1 => rfl)).trans (by decide)⟩

/-- C19: the TOP rewrite at offset above 0 evaluated on the example query with
style `mssql`, offset 10, count 5 and primary key `id`.  The wrapper that is
rendered has a nested Builder as source, no alias, and the non-empty filter
"original filter AND id NOT IN (inner)", against the invariant on derived
tables; the SELECT writer rejects it with `ErrUnnamedDerivedTable` whatever
the nested render does. -/
theorem C19_top_wrapper_unnamed_with_filter :
    ∃ final inner : Builder,
      Renders asciiLower false (exPaged "mssql" 10 5 "id") exWriter final ∧
      final.subQuery = some inner ∧ final.tableName = "" ∧
      final.cond = Cond.and (Cond.expr "x=?" [Value.int 1]) (Cond.notIn "id" inner) ∧
      final.cond ≠ Cond.empty ∧ final.cond.IsValid = true ∧
      ∀ sub : Renderer,
        (limitWriteTo asciiLower false (selectWriteTo sub) (exPaged "mssql" 10 5 "id") exWriter).1 =
          some Error.ErrUnnamedDerivedTable := by
  have hact := top_later_page asciiLower false (exPaged "mssql" 10 5 "id")
    exWriter { style := "mssql", offset := 10, limitN := 5, pk := "id" }
    (Or.inl rfl) rfl (by decide) (by decide) (by decide) (by decide) (by decide)
  refine ⟨_, _, hact, rfl, rfl, rfl, ?_, rfl, ?_⟩
  · intro h
    cases h
  · intro sub
    rw [(hact (selectWriteTo sub)).1]
    exact selectWriteTo_unnamed sub _ _ BytesWriter.reset rfl rfl rfl

/-- C20: when the kind is not SELECT or UNION, or no pagination spec is
attached, or the spec has a count that is not positive or a negative offset,
the call returns the Builder (its pagination spec included) and the writer
exactly as they were; with no pagination spec on a SELECT or UNION Builder it
returns no error. -/
theorem C20_untouched_before_validation (lower : Char → Char) (spare : Bool) (WriteTo : Renderer)
    (b : Builder) (w : BytesWriter)
    (h : ¬ (b.optype = selectType ∨ b.optype = unionType) ∨ b.limitation = none ∨
      ∃ limit, b.limitation = some limit ∧ (limit.limitN ≤ 0 ∨ limit.offset < 0)) :
    (limitWriteTo lower spare WriteTo b w).2 = (b, w) ∧
    ((b.optype = selectType ∨ b.optype = unionType) → b.limitation = none →
      (limitWriteTo lower spare WriteTo b w).1 = none) := by
  by_cases hop : b.optype = selectType ∨ b.optype = unionType
  · have g1 : ¬ ¬ (b.optype = selectType ∨ b.optype = unionType) := not_not.mpr hop
    rcases h with h | h | ⟨limit, hl, hbad⟩
    · exact absurd hop h
    · have e : limitWriteTo lower spare WriteTo b w = (none, b, w) := by
        unfold limitWriteTo
        rw [if_neg g1]
        simp only [h]
      rw [e]
      exact ⟨rfl, fun _ _ => rfl⟩
    · have g2 : limit.offset < 0 ∨ limit.limitN ≤ 0 := hbad.symm
      have e : limitWriteTo lower spare WriteTo b w =
          (some (Error.New "Unexpected offset/limitN, set a negative one?"), b, w) := by
        unfold limitWriteTo
        rw [if_neg g1]
        simp only [hl]
        rw [if_pos g2]
      rw [e]
      refine ⟨rfl, ?_⟩
      intro _ hnone
      rw [hl] at hnone
      exact absurd hnone (by simp)
  · unfold limitWriteTo
    rw [if_pos hop]
    exact ⟨rfl, fun h1 => absurd h1 hop⟩

/-- Witness of C20: the example query without pagination spec. -/
theorem C20_untouched_before_validation_witness :
    (limitWriteTo asciiLower false noSub exQuery exWriter).2 = (exQuery, exWriter) ∧
    ((exQuery.optype = selectType ∨ exQuery.optype = unionType) → exQuery.limitation = none →
      (limitWriteTo asciiLower false noSub exQuery exWriter).1 = none) :=
  C20_untouched_before_validation asciiLower false noSub exQuery exWriter (Or.inr (Or.inl rfl))

end builder
